import Mathlib

/-!
# Verification of the Mash lighting / model subsystem

A shallow embedding, in Lean 4, of the parts of the Mash library (a
Clutter-based 3D model rendering library, C sources under `src/mash/`)
that the specification's claims are about:

* `mash-light.c` — the abstract light base class: the per-instance unique
  symbol suffix, the ambient/diffuse/specular color setters and getters,
  and the base implementations of `generate_shader` / `update_uniforms`;
* `mash-light-set.c` — the light set: program dirtying, layer-index
  reconciliation, `begin_paint` (light uniform refresh, normal matrix and
  material uploads) and the shininess clamp wrapper;
* `mash-point-light.c` / `mash-spot-light.c` — the GLSL snippets for the
  point and spot lighting contributions, evaluated over exact rationals
  with the GLSL builtins (`sqrt` for `length`, `pow`) supplied as an
  environment;
* `mash-stl-loader.c` — bounding-box accumulation and the index-range
  check performed by `load` (whose feeding accumulator,
  `mash_stl_loader_add_face_index`, has no callers);
* `mash-data.c` — `mash_data_load`: extension dispatch and failure
  atomicity;
* `mash-model.c` — `mash_model_paint`, `mash_model_render_data` and the
  fit-to-allocation computation in `mash_model_allocate`.

C `float` / `double` values are modelled as exact rationals (`ℚ`); machine
integer widths are made explicit (`% 2 ^ w`) where the code truncates.
External collaborators (Cogl, Clutter, GLSL builtins, the rstl reader) are
modelled as inputs: uniform-location lookup is a function supplied with the
pipeline, the modelview-matrix inverse is an input to `begin_paint`, and
the file reader's output is an input to the loader.
-/

namespace Mash

/-- An RGBA color with 8-bit channels, as `ClutterColor`. -/
structure ClutterColor where
  red : ℕ
  green : ℕ
  blue : ℕ
  alpha : ℕ
deriving DecidableEq, Repr

/-- `mash-light.c`: the default light color, opaque white. -/
def mash_light_default_color : ClutterColor := ⟨255, 255, 255, 255⟩

/-- `G_MAXFLOAT` (= `FLT_MAX`), as an exact rational. -/
def G_MAXFLOAT : ℚ := (2 ^ 24 - 1) * 2 ^ 104

/-- `mash-light-set.c`, `mash_light_set_get_shininess_wrapper`:
`MAX (0.0001, shininess)` with glib's `MAX(a,b) = (a) > (b) ? (a) : (b)`. -/
def mash_light_set_get_shininess_wrapper (shininess : ℚ) : ℚ :=
  if (1 : ℚ) / 10000 > shininess then 1 / 10000 else shininess

/-! ## Light color state and the property setters (`mash-light.c`)

`MashLightPrivate` stores `light_colors[3]` (ambient, diffuse, specular).
The setters guard the store with
`!clutter_color_equal (c, &priv->light_colors + INDEX)`: the operand is a
pointer to the whole 3-element array, so `+ INDEX` advances in strides of
the whole array.  For `INDEX = 0` that is `light_colors[0]` (the stored
ambient color); for `INDEX = 1` and `INDEX = 2` it points 12 and 24 bytes
past the start of the array, outside it.  The two 4-byte values that
`clutter_color_equal` reads there depend on struct layout and on whatever
the neighbouring fields currently hold; they are modelled as the
unconstrained state components `beyond0` and `beyond1`. -/

/-- The color-related state of a `MashLightPrivate`, together with the two
out-of-array memory locations the diffuse/specular setters compare
against. `dirty_uniforms` is the bitmask over the three colors. -/
structure MashLightColorState where
  ambient : ClutterColor
  diffuse : ClutterColor
  specular : ClutterColor
  dirty_uniforms : ℕ
  beyond0 : ClutterColor
  beyond1 : ClutterColor
deriving DecidableEq, Repr

/-- `mash_light_set_ambient`: compare against `&priv->light_colors + 0`
(which is the stored ambient color), store and set dirty bit 0 if unequal. -/
def mash_light_set_ambient (st : MashLightColorState) (c : ClutterColor) :
    MashLightColorState :=
  if c = st.ambient then st
  else { st with ambient := c, dirty_uniforms := st.dirty_uniforms ||| 1 }

/-- `mash_light_set_diffuse`: compare against `&priv->light_colors + 1`
(which lies outside the array: `beyond0`), store and set dirty bit 1 if
unequal. -/
def mash_light_set_diffuse (st : MashLightColorState) (c : ClutterColor) :
    MashLightColorState :=
  if c = st.beyond0 then st
  else { st with diffuse := c, dirty_uniforms := st.dirty_uniforms ||| 2 }

/-- `mash_light_set_specular`: compare against `&priv->light_colors + 2`
(which lies outside the array: `beyond1`), store and set dirty bit 2 if
unequal. -/
def mash_light_set_specular (st : MashLightColorState) (c : ClutterColor) :
    MashLightColorState :=
  if c = st.beyond1 then st
  else { st with specular := c, dirty_uniforms := st.dirty_uniforms ||| 4 }

/-- `mash_light_get_ambient`. -/
def mash_light_get_ambient (st : MashLightColorState) : ClutterColor := st.ambient

/-- `mash_light_get_diffuse`. -/
def mash_light_get_diffuse (st : MashLightColorState) : ClutterColor := st.diffuse

/-- `mash_light_get_specular`. -/
def mash_light_get_specular (st : MashLightColorState) : ClutterColor := st.specular

/-- C10: the claimed setter/getter round trip fails on the code for the
diffuse (and likewise specular) color.  The change-detection comparison of
`mash_light_set_diffuse` reads the memory just past the `light_colors`
array; on a light whose bytes there happen to equal the new color while the
stored diffuse color is still the default white, the setter skips the store
and the getter returns white, not the value that was set.  (For the ambient
color, index 0, the compared address is the stored color itself and the
round trip does hold; the third conjunct shows it on the same state.) -/
theorem C10_diffuse_roundtrip_fails :
    let c : ClutterColor := ⟨1, 0, 0, 0⟩
    let st0 : MashLightColorState :=
      { ambient := mash_light_default_color
        diffuse := mash_light_default_color
        specular := mash_light_default_color
        dirty_uniforms := 0
        beyond0 := ⟨1, 0, 0, 0⟩
        beyond1 := ⟨0, 0, 0, 0⟩ }
    mash_light_get_diffuse (mash_light_set_diffuse st0 c) ≠ c ∧
    mash_light_get_diffuse (mash_light_set_diffuse st0 c) = mash_light_default_color ∧
    mash_light_get_ambient (mash_light_set_ambient st0 c) = c := by
  decide

/-! ## The per-light unique symbol suffix (`mash-light.c`)

`mash_light_init` builds `priv->unique_str` with
`g_snprintf (priv->unique_str, MASH_LIGHT_UNIQUE_SYMBOL_SIZE + 1, "g%08u", gid)`
where `MASH_LIGHT_UNIQUE_SYMBOL_SIZE = 9` and `gid` is the actor's
`guint32` id.  `%08u` left-pads the decimal form of `gid` with zeros to a
minimum width of 8 (it does not truncate wider values), and `g_snprintf`
then truncates the whole string to at most 9 characters. -/

/-- Little-endian decimal digits of `n`, fuelled structural recursion
(`fuel ≥ n` suffices). -/
def decimalDigitsAux : ℕ → ℕ → List ℕ
  | 0, _ => []
  | fuel + 1, n => if n = 0 then [] else n % 10 :: decimalDigitsAux fuel (n / 10)

/-- Little-endian decimal digits of `n`. -/
def decimalDigitsLE (n : ℕ) : List ℕ := decimalDigitsAux n n

/-- The character for a decimal digit. -/
def digitChar (d : ℕ) : Char := Char.ofNat (48 + d)

/-- `mash_light_init`: the unique symbol suffix of a light whose actor id
is `gid` — the result of `g_snprintf (buf, 10, "g%08u", gid)`. -/
def mash_light_unique_str (gid : ℕ) : List Char :=
  ('g' :: (List.replicate (8 - (decimalDigitsLE gid).length) '0' ++
    ((decimalDigitsLE gid).reverse.map digitChar))).take 9

/-- `mash_light_append_shader`: append `snippet` to the shader source with
every occurrence of the symbol `$` replaced by the light's unique
suffix. (The source appends exactly `MASH_LIGHT_UNIQUE_SYMBOL_SIZE = 9`
characters of `unique_str`; `mash_light_unique_str` always has length 9, see
`mash_light_unique_str_length`.) -/
def mash_light_append_shader (unique_str : List Char) : List Char → List Char
  | [] => []
  | c :: rest =>
      if c = '$' then unique_str ++ mash_light_append_shader unique_str rest
      else c :: mash_light_append_shader unique_str rest

/-- A symbol with `$` substituted is `name ++ suffix`: the bridge between
`mash_light_append_shader` and the per-light name lists below. -/
theorem mash_light_append_shader_symbol (u name : List Char) (h : '$' ∉ name) :
    mash_light_append_shader u (name ++ ['$']) = name ++ u := by
  induction name with
  | nil => simp [mash_light_append_shader]
  | cons c rest ih =>
    have hc : ¬c = '$' := fun hce => h (hce ▸ List.mem_cons_self c rest)
    have hr : '$' ∉ rest := fun hm => h (List.mem_cons_of_mem _ hm)
    simp [mash_light_append_shader, hc, ih hr]

/-- Digits produced by `decimalDigitsAux` are decimal digits. -/
theorem decimalDigitsAux_lt (fuel : ℕ) :
    ∀ n, ∀ d ∈ decimalDigitsAux fuel n, d < 10 := by
  induction fuel with
  | zero => intro n d hd; simp [decimalDigitsAux] at hd
  | succ fuel ih =>
    intro n d hd
    rw [decimalDigitsAux] at hd
    split at hd
    · simp at hd
    · rcases List.mem_cons.mp hd with h | h
      · exact h ▸ Nat.mod_lt _ (by norm_num)
      · exact ih _ d h

/-- `n < 10 ^ k` has at most `k` decimal digits. -/
theorem decimalDigitsAux_length_le (fuel : ℕ) :
    ∀ n k, n ≤ fuel → n < 10 ^ k → (decimalDigitsAux fuel n).length ≤ k := by
  induction fuel with
  | zero => intro n k _ _; simp [decimalDigitsAux]
  | succ fuel ih =>
    intro n k hn hk
    rw [decimalDigitsAux]
    split
    · simp
    · next hne =>
      cases k with
      | zero => simp at hk; omega
      | succ k =>
        simp only [List.length_cons]
        have hlt : n / 10 < n := Nat.div_lt_self (Nat.pos_of_ne_zero hne) (by norm_num)
        have h2 : n / 10 < 10 ^ k := by
          rw [Nat.div_lt_iff_lt_mul (by norm_num : (0:ℕ) < 10)]
          calc n < 10 ^ (k + 1) := hk
            _ = 10 ^ k * 10 := by rw [pow_succ]
        have := ih (n / 10) k (by omega) h2
        omega

/-- Folding `a * 10 + d` over the big-endian decimal digits rebuilds the
number. -/
theorem decimalDigitsAux_foldl (fuel : ℕ) :
    ∀ n acc, n ≤ fuel →
      ((decimalDigitsAux fuel n).reverse).foldl (fun a d => a * 10 + d) acc =
        acc * 10 ^ (decimalDigitsAux fuel n).length + n := by
  induction fuel with
  | zero =>
    intro n acc hn
    have : n = 0 := Nat.le_zero.mp hn
    simp [this, decimalDigitsAux]
  | succ fuel ih =>
    intro n acc hn
    rw [decimalDigitsAux]
    split
    · next h => simp [h]
    · next h =>
      have h1 : n / 10 ≤ fuel := by
        have := Nat.div_lt_self (Nat.pos_of_ne_zero h) (by norm_num : (1:ℕ) < 10)
        omega
      simp only [List.reverse_cons, List.foldl_append, List.foldl_cons, List.foldl_nil,
        List.length_cons]
      rw [ih (n / 10) acc h1]
      have hdm : n / 10 * 10 + n % 10 = n := by omega
      calc (acc * 10 ^ (decimalDigitsAux fuel (n / 10)).length + n / 10) * 10 + n % 10
          = acc * (10 ^ (decimalDigitsAux fuel (n / 10)).length * 10) +
              (n / 10 * 10 + n % 10) := by ring
        _ = acc * 10 ^ ((decimalDigitsAux fuel (n / 10)).length + 1) + n := by
              rw [hdm, pow_succ]

/-- `digitChar` round trip for decimal digits. -/
theorem digitChar_toNat (d : ℕ) (hd : d < 10) : (digitChar d).toNat - 48 = d := by
  interval_cases d <;> decide

/-- Read a big-endian decimal character string back as a number. -/
def decodeDecimal (cs : List Char) : ℕ :=
  cs.foldl (fun a c => a * 10 + (c.toNat - 48)) 0

/-- Folding over leading zero padding multiplies the accumulator by `10 ^ k`. -/
theorem foldl_zero_pad (k : ℕ) : ∀ acc : ℕ,
    (List.replicate k '0').foldl (fun a c => a * 10 + (c.toNat - 48)) acc =
      acc * 10 ^ k := by
  induction k with
  | zero => intro acc; simp
  | succ k ih =>
    intro acc
    rw [List.replicate_succ, List.foldl_cons, ih]
    have h0 : '0'.toNat - 48 = 0 := by decide
    rw [h0, pow_succ]
    ring

/-- Decoding the digit characters is folding over the digits. -/
theorem foldl_map_digitChar (ds : List ℕ) (hds : ∀ d ∈ ds, d < 10) : ∀ acc : ℕ,
    (ds.map digitChar).foldl (fun a c => a * 10 + (c.toNat - 48)) acc =
      ds.foldl (fun a d => a * 10 + d) acc := by
  induction ds with
  | nil => intro acc; rfl
  | cons d ds ih =>
    intro acc
    simp only [List.map_cons, List.foldl_cons]
    rw [digitChar_toNat d (hds d (List.mem_cons_self _ _)),
      ih (fun x hx => hds x (List.mem_cons_of_mem _ hx))]

/-- The unique suffix always has exactly 9 characters (the source appends
exactly `MASH_LIGHT_UNIQUE_SYMBOL_SIZE = 9` bytes of it). -/
theorem mash_light_unique_str_length (gid : ℕ) :
    (mash_light_unique_str gid).length = 9 := by
  rw [mash_light_unique_str]
  simp only [List.length_take, List.length_cons, List.length_append,
    List.length_replicate, List.length_map, List.length_reverse]
  omega

/-- For ids below `10 ^ 8` the suffix encodes the id faithfully. -/
theorem decode_unique_str (gid : ℕ) (h : gid < 10 ^ 8) :
    decodeDecimal ((mash_light_unique_str gid).drop 1) = gid := by
  have hlen : (decimalDigitsLE gid).length ≤ 8 :=
    decimalDigitsAux_length_le gid gid 8 le_rfl h
  have hfull : ('g' :: (List.replicate (8 - (decimalDigitsLE gid).length) '0' ++
      ((decimalDigitsLE gid).reverse.map digitChar))).length ≤ 9 := by
    simp only [List.length_cons, List.length_append, List.length_replicate,
      List.length_map, List.length_reverse]
    omega
  rw [mash_light_unique_str, List.take_of_length_le hfull, List.drop_one, List.tail_cons,
    decodeDecimal, List.foldl_append, foldl_zero_pad]
  unfold decimalDigitsLE
  rw [foldl_map_digitChar _ (fun d hd => decimalDigitsAux_lt gid gid d
      (List.mem_reverse.mp hd)),
    decimalDigitsAux_foldl gid gid _ le_rfl]
  simp

/-- The suffix is injective on ids below `10 ^ 8`. -/
theorem mash_light_unique_str_inj (g1 g2 : ℕ) (h1 : g1 < 10 ^ 8) (h2 : g2 < 10 ^ 8)
    (he : mash_light_unique_str g1 = mash_light_unique_str g2) : g1 = g2 := by
  have hdec : decodeDecimal ((mash_light_unique_str g1).drop 1) =
      decodeDecimal ((mash_light_unique_str g2).drop 1) := by rw [he]
  rw [decode_unique_str g1 h1, decode_unique_str g2 h2] at hdec
  exact hdec

/-- The concrete light types of the library. -/
inductive MashLightType
  | base
  | directional
  | point
  | spot
deriving DecidableEq, Repr

/-- The `$`-suffixed uniform and variable symbols each light type writes
into the generated shader source, transcribed from the snippet strings in
`mash-light.c`, `mash-directional-light.c`, `mash-point-light.c` and
`mash-spot-light.c`.  Every subtype chains up to the base class, so the
base color uniforms are contributed by every type; `MashSpotLight` chains
up through `MashPointLight` but trims the point light's main source back,
keeping the point light's uniform declarations only. -/
def mash_light_base_symbols : List (List Char) :=
  [("ambient_light").toList, ("diffuse_light").toList, ("specular_light").toList]

def mash_light_dollar_symbols : MashLightType → List (List Char)
  | .base => mash_light_base_symbols
  | .directional =>
      mash_light_base_symbols ++
      [("light_direction").toList,
       ("lit_color").toList, ("diffuse_factor").toList, ("half_vector").toList,
       ("spec_factor").toList, ("spec_power").toList]
  | .point =>
      mash_light_base_symbols ++
      [("attenuation").toList, ("light_eye_coord").toList,
       ("light_vec").toList, ("d").toList, ("lit_color").toList,
       ("diffuse_factor").toList, ("half_vector").toList,
       ("spec_factor").toList, ("spec_power").toList]
  | .spot =>
      mash_light_base_symbols ++
      [("attenuation").toList, ("light_eye_coord").toList,
       ("spot_cos_cutoff").toList, ("spot_exponent").toList,
       ("spot_direction").toList,
       ("light_vec").toList, ("d").toList, ("spot_cos").toList,
       ("lit_color").toList, ("diffuse_factor").toList, ("half_vector").toList,
       ("spec_factor").toList, ("spec_power").toList, ("att").toList]

/-- The `$`-suffixed names a light instance with actor id `gid` contributes
to the generated shader source: each symbol with the light's unique suffix
substituted for `$` (see `mash_light_append_shader_symbol`). -/
def mash_light_contributed_names (t : MashLightType) (gid : ℕ) : List (List Char) :=
  (mash_light_dollar_symbols t).map (fun s => s ++ mash_light_unique_str gid)

/-- C4 (counterexample): the unique suffix is NOT unique per light
instance.  `g_snprintf` truncates `"g%08u"` to 9 characters, so two
distinct `guint32` actor ids of nine or more decimal digits that agree on
their first eight digits — here 100000000 and 100000001 — receive the same
suffix, and two such lights of the same concrete type contribute
overlapping, not disjoint, `$`-suffixed name sets. -/
theorem C4_suffix_collision :
    (100000000 : ℕ) ≠ 100000001 ∧
    mash_light_unique_str 100000000 = mash_light_unique_str 100000001 ∧
    ¬ List.Disjoint (mash_light_contributed_names .point 100000000)
        (mash_light_contributed_names .point 100000001) := by
  refine ⟨by decide, by decide, fun hd => ?_⟩
  exact hd
    (show ("ambient_light").toList ++ mash_light_unique_str 100000000 ∈
      mash_light_contributed_names .point 100000000 by decide)
    (by decide)

/-- C4 (amended): for every pair of distinct lights whose actor ids are
below `10 ^ 8` (so that the 8-digit field of `"g%08u"` is not truncated),
the `$`-suffixed uniform and variable names the two lights contribute to
the generated shader source form disjoint sets — for any combination of
concrete light types. -/
theorem C4_unique_symbol_disjoint (t1 t2 : MashLightType) (g1 g2 : ℕ)
    (h1 : g1 < 10 ^ 8) (h2 : g2 < 10 ^ 8) (hne : g1 ≠ g2) :
    List.Disjoint (mash_light_contributed_names t1 g1)
      (mash_light_contributed_names t2 g2) := by
  intro x hx1 hx2
  rcases List.mem_map.mp hx1 with ⟨s1, _, he1⟩
  rcases List.mem_map.mp hx2 with ⟨s2, _, he2⟩
  have he : s1 ++ mash_light_unique_str g1 = s2 ++ mash_light_unique_str g2 :=
    he1.trans he2.symm
  have hl : (mash_light_unique_str g1).length = (mash_light_unique_str g2).length := by
    rw [mash_light_unique_str_length, mash_light_unique_str_length]
  have hsuf : mash_light_unique_str g1 = mash_light_unique_str g2 :=
    (List.append_inj' he hl).2
  exact hne (mash_light_unique_str_inj g1 g2 h1 h2 hsuf)

/-- C4 witness: the disjointness theorem applied at two concrete in-range
ids and a concrete light type. -/
theorem C4_unique_symbol_disjoint_witness :
    (123 : ℕ) < 10 ^ 8 ∧ (7 : ℕ) < 10 ^ 8 ∧ (123 : ℕ) ≠ 7 ∧
    List.Disjoint (mash_light_contributed_names .spot 123)
      (mash_light_contributed_names .spot 7) :=
  ⟨by norm_num, by norm_num, by decide,
    C4_unique_symbol_disjoint .spot .spot 123 7 (by norm_num) (by norm_num) (by decide)⟩

/-! ## The STL loader (`mash-stl-loader.c`)

`mash_stl_loader_load` drives the external rstl reader.  The reader's
callbacks accumulate, per complete 9-property record (`x0..z2`, the three
corner positions of one facet), the vertex byte array and the bounding
box, and `mash_stl_loader_add_face_index` accumulates the index range and
the narrowed index array.  The parsing itself (file access, header, and
per-property dispatch) is external; it is modelled as an input that either
fails with a `MashDataError` or yields the parsed records, the face
indices, and the declared `facet` element count (which selects the index
width). -/

/-- The error codes of `MashDataError` that the sources use. -/
inductive MashDataError
  | ply
  | missing_property
  | invalid
  | unsupported
  | unknown
  | unknown_format
deriving DecidableEq, Repr

/-- A `ClutterVertex`, with exact rational components. -/
structure ClutterVertex where
  x : ℚ
  y : ℚ
  z : ℚ
deriving DecidableEq, Repr

/-- One complete record appended by `mash_stl_loader_vertex_read_cb`: the
9 float properties `x0 y0 z0 x1 y1 z1 x2 y2 z2`. -/
structure StlRecord where
  x0 : ℚ
  y0 : ℚ
  z0 : ℚ
  x1 : ℚ
  y1 : ℚ
  z1 : ℚ
  x2 : ℚ
  y2 : ℚ
  z2 : ℚ
deriving DecidableEq, Repr

/-- The three corner positions held in one record (`prop_map[i*3+j]` for
corner `i`, component `j`). -/
def StlRecord.corners (r : StlRecord) : List ClutterVertex :=
  [⟨r.x0, r.y0, r.z0⟩, ⟨r.x1, r.y1, r.z1⟩, ⟨r.x2, r.y2, r.z2⟩]

/-- The inner `j` loop of the bounding-box update in
`mash_stl_loader_vertex_read_cb`:
`if (value < *min) *min = value; if (value > *max) *max = value;`
for the three components of one corner. -/
def updateExtentsVertex (mm : ClutterVertex × ClutterVertex) (v : ClutterVertex) :
    ClutterVertex × ClutterVertex :=
  (⟨if v.x < mm.1.x then v.x else mm.1.x,
    if v.y < mm.1.y then v.y else mm.1.y,
    if v.z < mm.1.z then v.z else mm.1.z⟩,
   ⟨if v.x > mm.2.x then v.x else mm.2.x,
    if v.y > mm.2.y then v.y else mm.2.y,
    if v.z > mm.2.z then v.z else mm.2.z⟩)

/-- The outer `i` loop of the bounding-box update (the three corners of a
complete record). -/
def mash_stl_loader_vertex_read_extents (mm : ClutterVertex × ClutterVertex)
    (r : StlRecord) : ClutterVertex × ClutterVertex :=
  r.corners.foldl updateExtentsVertex mm

/-- `mash_stl_loader_add_face_index`, range part: update
`(min_index, max_index)` with one index.  NOTE: this function is defined
in `mash-stl-loader.c` (line 238) but has no callers — the loader
registers read callbacks only for the nine facet-corner coordinate
properties, so no face index is ever produced and
`min_index` / `max_index` / `faces` keep their initial values through
every load. -/
def mash_stl_loader_add_face_index (st : ℕ × ℕ) (index : ℕ) : ℕ × ℕ :=
  (if index < st.1 then index else st.1,
   if index > st.2 then index else st.2)

/-- The three Cogl index widths. -/
inductive CoglIndicesType
  | unsigned_byte
  | unsigned_short
  | unsigned_int
deriving DecidableEq, Repr

/-- Bit width of the stored index value for each index type. -/
def CoglIndicesType.width : CoglIndicesType → ℕ
  | .unsigned_byte => 8
  | .unsigned_short => 16
  | .unsigned_int => 32

/-- `mash_stl_loader_get_indices_type`: choose the index width from the
declared number of `facet` instances; fail with
`MASH_DATA_ERROR_UNSUPPORTED` when 32-bit indices would be required but
the driver lacks `COGL_FEATURE_UNSIGNED_INT_INDICES`. -/
def mash_stl_loader_get_indices_type (n_instances : ℕ) (supports_uint : Bool) :
    Except MashDataError CoglIndicesType :=
  if n_instances ≤ 256 then .ok .unsigned_byte
  else if n_instances ≤ 65536 then .ok .unsigned_short
  else if supports_uint then .ok .unsigned_int
  else .error .unsupported

/-- The mesh state installed by a successful `mash_stl_loader_load`. -/
structure MashStlLoaderPrivate where
  min_index : ℕ
  max_index : ℕ
  n_triangles : ℕ
  min_vertex : ClutterVertex
  max_vertex : ClutterVertex
  faces : List ℕ
  records : List StlRecord
deriving DecidableEq, Repr

/-- What the external rstl reader produced from one file: the complete
9-property records and the declared `facet` element count.  The reader
yields no face indices — only the corner-coordinate read callbacks are
registered. -/
structure StlParse where
  records : List StlRecord
  n_facet_instances : ℕ
deriving DecidableEq, Repr

/-- The initial bounding box:
`min = (G_MAXFLOAT, …)`, `max = (-G_MAXFLOAT, …)`. -/
def mash_stl_loader_initial_extents : ClutterVertex × ClutterVertex :=
  (⟨G_MAXFLOAT, G_MAXFLOAT, G_MAXFLOAT⟩, ⟨-G_MAXFLOAT, -G_MAXFLOAT, -G_MAXFLOAT⟩)

/-- `G_MAXUINT`, the initial `min_index`. -/
def G_MAXUINT : ℕ := 2 ^ 32 - 1

/-- `mash_stl_loader_load`: on a reader error propagate it; otherwise
pick the index width, accumulate the bounding box over the records, check
`data.max_index >= data.vertices->len / data.n_vertex_bytes` (failing
with `MASH_DATA_ERROR_INVALID`, "Index out of range"), and only then
replace the previously installed mesh state.  Because
`mash_stl_loader_add_face_index` is never invoked (no read callback
produces a face index), the index range and the faces array keep their
initial values `(G_MAXUINT, 0)` and `[]` on every load. -/
def mash_stl_loader_load (prior : MashStlLoaderPrivate)
    (input : Except MashDataError StlParse) (supports_uint : Bool) :
    Except MashDataError Unit × MashStlLoaderPrivate :=
  match input with
  | .error e => (.error e, prior)
  | .ok p =>
    match mash_stl_loader_get_indices_type p.n_facet_instances supports_uint with
    | .error e => (.error e, prior)
    | .ok _ =>
      let idx : ℕ × ℕ := (G_MAXUINT, 0)
      let faces : List ℕ := []
      let ext := p.records.foldl mash_stl_loader_vertex_read_extents
        mash_stl_loader_initial_extents
      if p.records.length ≤ idx.2 then (.error .invalid, prior)
      else
        (.ok (), { min_index := idx.1
                   max_index := idx.2
                   n_triangles := faces.length / 3
                   min_vertex := ext.1
                   max_vertex := ext.2
                   faces := faces
                   records := p.records })

/-- C5: the index validation is vestigial — a code bug.  The guard
`data.max_index >= data.vertices->len / data.n_vertex_bytes` exists to
catch out-of-range face indices, and `mash_stl_loader_add_face_index`
exists to accumulate them, but no read callback ever produces an index,
so `max_index` is 0 on every load.  Consequently (first conjunct) a parse
with zero records — a file containing no index at all — is rejected with
the "Index out of range" failure, the prior mesh state preserved, while
(second conjunct) a normal one-record load succeeds and installs an
empty face-index array, `max_index = 0` and `min_index = G_MAXUINT`
untouched: the out-of-range detection the claim describes can never fire
on an actual index. -/
theorem C5_index_validation_unreachable :
    mash_stl_loader_load ⟨0, 0, 0, ⟨0, 0, 0⟩, ⟨0, 0, 0⟩, [], []⟩
      (.ok ⟨[], 0⟩) true =
      (.error .invalid, ⟨0, 0, 0, ⟨0, 0, 0⟩, ⟨0, 0, 0⟩, [], []⟩) ∧
    mash_stl_loader_load ⟨0, 0, 0, ⟨0, 0, 0⟩, ⟨0, 0, 0⟩, [], []⟩
      (.ok ⟨[⟨0, 0, 0, 1, 2, 3, -1, 5, 2⟩], 1⟩) true =
      (.ok (), ⟨G_MAXUINT, 0, 0, ⟨-1, 0, 0⟩, ⟨1, 5, 3⟩, [],
        [⟨0, 0, 0, 1, 2, 3, -1, 5, 2⟩]⟩) := by
  constructor
  · norm_num [mash_stl_loader_load, mash_stl_loader_get_indices_type,
      mash_stl_loader_initial_extents, G_MAXUINT]
  · norm_num [mash_stl_loader_load, mash_stl_loader_get_indices_type,
      mash_stl_loader_vertex_read_extents, updateExtentsVertex,
      StlRecord.corners, mash_stl_loader_initial_extents, G_MAXUINT,
      G_MAXFLOAT]

/-- All corner positions of a record list, in parse order: the parsed
vertex positions of the mesh. -/
def stlVertices (rs : List StlRecord) : List ClutterVertex :=
  rs.flatMap StlRecord.corners

/-- Folding the per-record extents update over the records is folding the
per-corner update over all corners. -/
theorem foldl_extents_bind (rs : List StlRecord) :
    ∀ mm, rs.foldl mash_stl_loader_vertex_read_extents mm =
      (stlVertices rs).foldl updateExtentsVertex mm := by
  induction rs with
  | nil => intro mm; rfl
  | cons r rs ih =>
    intro mm
    have hsv : stlVertices (r :: rs) = r.corners ++ stlVertices rs := by
      simp [stlVertices]
    rw [List.foldl_cons, ih, hsv, List.foldl_append]
    rfl

/-- The running-minimum fold of `mash_stl_loader_vertex_read_cb`, one
component. -/
def foldlMin (init : ℚ) (xs : List ℚ) : ℚ :=
  xs.foldl (fun m v => if v < m then v else m) init

/-- The running-maximum fold of `mash_stl_loader_vertex_read_cb`, one
component. -/
def foldlMax (init : ℚ) (xs : List ℚ) : ℚ :=
  xs.foldl (fun m v => if v > m then v else m) init

theorem foldlMin_cons (init a : ℚ) (l : List ℚ) :
    foldlMin init (a :: l) = foldlMin (if a < init then a else init) l := rfl

theorem foldlMax_cons (init a : ℚ) (l : List ℚ) :
    foldlMax init (a :: l) = foldlMax (if a > init then a else init) l := rfl

theorem foldlMin_le_init (xs : List ℚ) : ∀ init, foldlMin init xs ≤ init := by
  induction xs with
  | nil => intro init; exact le_rfl
  | cons a l ih =>
    intro init
    rw [foldlMin_cons]
    refine le_trans (ih _) ?_
    split <;> linarith

theorem foldlMin_le_mem (xs : List ℚ) : ∀ init, ∀ x ∈ xs, foldlMin init xs ≤ x := by
  induction xs with
  | nil => intro init x hx; simp at hx
  | cons a l ih =>
    intro init x hx
    rcases List.mem_cons.mp hx with h | h
    · subst h
      rw [foldlMin_cons]
      refine le_trans (foldlMin_le_init l _) ?_
      split <;> linarith
    · exact (foldlMin_cons init a l) ▸ ih _ x h

theorem foldlMin_eq_init_or_mem (xs : List ℚ) :
    ∀ init, foldlMin init xs = init ∨ foldlMin init xs ∈ xs := by
  induction xs with
  | nil => intro init; exact Or.inl rfl
  | cons a l ih =>
    intro init
    rw [foldlMin_cons]
    rcases ih (if a < init then a else init) with h | h
    · rw [h]
      split
      · exact Or.inr (List.mem_cons_self _ _)
      · exact Or.inl rfl
    · exact Or.inr (List.mem_cons_of_mem _ h)

theorem foldlMax_ge_init (xs : List ℚ) : ∀ init, init ≤ foldlMax init xs := by
  induction xs with
  | nil => intro init; exact le_rfl
  | cons a l ih =>
    intro init
    rw [foldlMax_cons]
    refine le_trans ?_ (ih _)
    split <;> linarith

theorem foldlMax_ge_mem (xs : List ℚ) : ∀ init, ∀ x ∈ xs, x ≤ foldlMax init xs := by
  induction xs with
  | nil => intro init x hx; simp at hx
  | cons a l ih =>
    intro init x hx
    rcases List.mem_cons.mp hx with h | h
    · subst h
      rw [foldlMax_cons]
      refine le_trans ?_ (foldlMax_ge_init l _)
      split <;> linarith
    · exact (foldlMax_cons init a l) ▸ ih _ x h

theorem foldlMax_eq_init_or_mem (xs : List ℚ) :
    ∀ init, foldlMax init xs = init ∨ foldlMax init xs ∈ xs := by
  induction xs with
  | nil => intro init; exact Or.inl rfl
  | cons a l ih =>
    intro init
    rw [foldlMax_cons]
    rcases ih (if a > init then a else init) with h | h
    · rw [h]
      split
      · exact Or.inr (List.mem_cons_self _ _)
      · exact Or.inl rfl
    · exact Or.inr (List.mem_cons_of_mem _ h)

/-- A bounded, nonempty running minimum is attained. -/
theorem foldlMin_spec (init : ℚ) (xs : List ℚ) (hne : xs ≠ [])
    (hb : ∀ x ∈ xs, x ≤ init) :
    (∀ x ∈ xs, foldlMin init xs ≤ x) ∧ foldlMin init xs ∈ xs := by
  refine ⟨foldlMin_le_mem xs init, ?_⟩
  rcases foldlMin_eq_init_or_mem xs init with h | h
  · rcases List.exists_mem_of_ne_nil xs hne with ⟨x0, hx0⟩
    have h1 : foldlMin init xs ≤ x0 := foldlMin_le_mem xs init x0 hx0
    have h2 : x0 ≤ init := hb x0 hx0
    have : foldlMin init xs = x0 := by rw [h] at h1 ⊢; linarith
    exact this ▸ hx0
  · exact h

/-- A bounded, nonempty running maximum is attained. -/
theorem foldlMax_spec (init : ℚ) (xs : List ℚ) (hne : xs ≠ [])
    (hb : ∀ x ∈ xs, init ≤ x) :
    (∀ x ∈ xs, x ≤ foldlMax init xs) ∧ foldlMax init xs ∈ xs := by
  refine ⟨foldlMax_ge_mem xs init, ?_⟩
  rcases foldlMax_eq_init_or_mem xs init with h | h
  · rcases List.exists_mem_of_ne_nil xs hne with ⟨x0, hx0⟩
    have h1 : x0 ≤ foldlMax init xs := foldlMax_ge_mem xs init x0 hx0
    have h2 : init ≤ x0 := hb x0 hx0
    have : foldlMax init xs = x0 := by rw [h] at h1 ⊢; linarith
    exact this ▸ hx0
  · exact h

/-- The extents fold, projected onto the six scalar folds. -/
theorem foldl_extents_components (vs : List ClutterVertex) :
    ∀ mm : ClutterVertex × ClutterVertex,
      (vs.foldl updateExtentsVertex mm).1.x = foldlMin mm.1.x (vs.map ClutterVertex.x) ∧
      (vs.foldl updateExtentsVertex mm).1.y = foldlMin mm.1.y (vs.map ClutterVertex.y) ∧
      (vs.foldl updateExtentsVertex mm).1.z = foldlMin mm.1.z (vs.map ClutterVertex.z) ∧
      (vs.foldl updateExtentsVertex mm).2.x = foldlMax mm.2.x (vs.map ClutterVertex.x) ∧
      (vs.foldl updateExtentsVertex mm).2.y = foldlMax mm.2.y (vs.map ClutterVertex.y) ∧
      (vs.foldl updateExtentsVertex mm).2.z = foldlMax mm.2.z (vs.map ClutterVertex.z) := by
  induction vs with
  | nil => intro mm; exact ⟨rfl, rfl, rfl, rfl, rfl, rfl⟩
  | cons v vs ih =>
    intro mm
    simpa only [List.foldl_cons, List.map_cons, foldlMin_cons, foldlMax_cons] using
      ih (updateExtentsVertex mm v)

/-- C8: bounding box correctness.  A successful load with at least one
parsed vertex installs extents such that every component of every parsed
corner position lies inside `[min_vertex, max_vertex]` componentwise, and
each component of `min_vertex` and of `max_vertex` is attained by some
parsed vertex.  (The bound hypothesis records that every parsed `float` is
at most `G_MAXFLOAT` in magnitude, which holds for every finite `float`.) -/
theorem C8_bounding_box (prior : MashStlLoaderPrivate) (p : StlParse) (su : Bool)
    (priv2 : MashStlLoaderPrivate)
    (hload : mash_stl_loader_load prior (.ok p) su = (.ok (), priv2))
    (hne : stlVertices p.records ≠ [])
    (hbound : ∀ v ∈ stlVertices p.records,
      -G_MAXFLOAT ≤ v.x ∧ v.x ≤ G_MAXFLOAT ∧
      -G_MAXFLOAT ≤ v.y ∧ v.y ≤ G_MAXFLOAT ∧
      -G_MAXFLOAT ≤ v.z ∧ v.z ≤ G_MAXFLOAT) :
    (∀ v ∈ stlVertices p.records,
      priv2.min_vertex.x ≤ v.x ∧ v.x ≤ priv2.max_vertex.x ∧
      priv2.min_vertex.y ≤ v.y ∧ v.y ≤ priv2.max_vertex.y ∧
      priv2.min_vertex.z ≤ v.z ∧ v.z ≤ priv2.max_vertex.z) ∧
    (∃ v ∈ stlVertices p.records, v.x = priv2.min_vertex.x) ∧
    (∃ v ∈ stlVertices p.records, v.y = priv2.min_vertex.y) ∧
    (∃ v ∈ stlVertices p.records, v.z = priv2.min_vertex.z) ∧
    (∃ v ∈ stlVertices p.records, v.x = priv2.max_vertex.x) ∧
    (∃ v ∈ stlVertices p.records, v.y = priv2.max_vertex.y) ∧
    (∃ v ∈ stlVertices p.records, v.z = priv2.max_vertex.z) := by
  -- extract the installed extents from a successful load
  have hpriv : priv2.min_vertex =
      (p.records.foldl mash_stl_loader_vertex_read_extents
        mash_stl_loader_initial_extents).1 ∧
      priv2.max_vertex =
      (p.records.foldl mash_stl_loader_vertex_read_extents
        mash_stl_loader_initial_extents).2 := by
    simp only [mash_stl_loader_load] at hload
    split at hload
    · exact absurd (congrArg Prod.fst hload) (by simp)
    · split at hload
      · exact absurd (congrArg Prod.fst hload) (by simp)
      · have := congrArg Prod.snd hload
        simp only at this
        rw [← this]
        exact ⟨rfl, rfl⟩
  rcases hpriv with ⟨hmin, hmax⟩
  have hcomp := foldl_extents_components (stlVertices p.records)
    mash_stl_loader_initial_extents
  rw [foldl_extents_bind] at hmin hmax
  -- the six projected folds
  have hxne : (stlVertices p.records).map ClutterVertex.x ≠ [] := by
    simpa using hne
  have hyne : (stlVertices p.records).map ClutterVertex.y ≠ [] := by
    simpa using hne
  have hzne : (stlVertices p.records).map ClutterVertex.z ≠ [] := by
    simpa using hne
  have hminx := foldlMin_spec G_MAXFLOAT ((stlVertices p.records).map ClutterVertex.x)
    hxne (by intro x hx; rcases List.mem_map.mp hx with ⟨v, hv, rfl⟩
             exact (hbound v hv).2.1)
  have hminy := foldlMin_spec G_MAXFLOAT ((stlVertices p.records).map ClutterVertex.y)
    hyne (by intro x hx; rcases List.mem_map.mp hx with ⟨v, hv, rfl⟩
             exact (hbound v hv).2.2.2.1)
  have hminz := foldlMin_spec G_MAXFLOAT ((stlVertices p.records).map ClutterVertex.z)
    hzne (by intro x hx; rcases List.mem_map.mp hx with ⟨v, hv, rfl⟩
             exact (hbound v hv).2.2.2.2.2)
  have hmaxx := foldlMax_spec (-G_MAXFLOAT) ((stlVertices p.records).map ClutterVertex.x)
    hxne (by intro x hx; rcases List.mem_map.mp hx with ⟨v, hv, rfl⟩
             exact (hbound v hv).1)
  have hmaxy := foldlMax_spec (-G_MAXFLOAT) ((stlVertices p.records).map ClutterVertex.y)
    hyne (by intro x hx; rcases List.mem_map.mp hx with ⟨v, hv, rfl⟩
             exact (hbound v hv).2.2.1)
  have hmaxz := foldlMax_spec (-G_MAXFLOAT) ((stlVertices p.records).map ClutterVertex.z)
    hzne (by intro x hx; rcases List.mem_map.mp hx with ⟨v, hv, rfl⟩
             exact (hbound v hv).2.2.2.2.1)
  obtain ⟨hc1, hc2, hc3, hc4, hc5, hc6⟩ := hcomp
  simp only [mash_stl_loader_initial_extents] at hc1 hc2 hc3 hc4 hc5 hc6 hmin hmax
  constructor
  · intro v hv
    refine ⟨?_, ?_, ?_, ?_, ?_, ?_⟩
    · rw [hmin, hc1]; exact hminx.1 v.x (List.mem_map_of_mem _ hv)
    · rw [hmax, hc4]; exact hmaxx.1 v.x (List.mem_map_of_mem _ hv)
    · rw [hmin, hc2]; exact hminy.1 v.y (List.mem_map_of_mem _ hv)
    · rw [hmax, hc5]; exact hmaxy.1 v.y (List.mem_map_of_mem _ hv)
    · rw [hmin, hc3]; exact hminz.1 v.z (List.mem_map_of_mem _ hv)
    · rw [hmax, hc6]; exact hmaxz.1 v.z (List.mem_map_of_mem _ hv)
  · refine ⟨?_, ?_, ?_, ?_, ?_, ?_⟩
    · rcases List.mem_map.mp hminx.2 with ⟨v, hv, he⟩
      exact ⟨v, hv, by rw [hmin, hc1, he]⟩
    · rcases List.mem_map.mp hminy.2 with ⟨v, hv, he⟩
      exact ⟨v, hv, by rw [hmin, hc2, he]⟩
    · rcases List.mem_map.mp hminz.2 with ⟨v, hv, he⟩
      exact ⟨v, hv, by rw [hmin, hc3, he]⟩
    · rcases List.mem_map.mp hmaxx.2 with ⟨v, hv, he⟩
      exact ⟨v, hv, by rw [hmax, hc4, he]⟩
    · rcases List.mem_map.mp hmaxy.2 with ⟨v, hv, he⟩
      exact ⟨v, hv, by rw [hmax, hc5, he]⟩
    · rcases List.mem_map.mp hmaxz.2 with ⟨v, hv, he⟩
      exact ⟨v, hv, by rw [hmax, hc6, he]⟩

/-- C8 witness: a concrete one-record mesh loads successfully and its
installed extents bound and are attained by its three corners. -/
theorem C8_bounding_box_witness :
    (∀ v ∈ stlVertices [(⟨0, 0, 0, 1, 2, 3, -1, 5, 2⟩ : StlRecord)],
      (⟨-1, 0, 0⟩ : ClutterVertex).x ≤ v.x ∧ v.x ≤ (⟨1, 5, 3⟩ : ClutterVertex).x ∧
      (⟨-1, 0, 0⟩ : ClutterVertex).y ≤ v.y ∧ v.y ≤ (⟨1, 5, 3⟩ : ClutterVertex).y ∧
      (⟨-1, 0, 0⟩ : ClutterVertex).z ≤ v.z ∧ v.z ≤ (⟨1, 5, 3⟩ : ClutterVertex).z) ∧
    (∃ v ∈ stlVertices [(⟨0, 0, 0, 1, 2, 3, -1, 5, 2⟩ : StlRecord)],
      v.x = (⟨-1, 0, 0⟩ : ClutterVertex).x) ∧
    (∃ v ∈ stlVertices [(⟨0, 0, 0, 1, 2, 3, -1, 5, 2⟩ : StlRecord)],
      v.y = (⟨-1, 0, 0⟩ : ClutterVertex).y) ∧
    (∃ v ∈ stlVertices [(⟨0, 0, 0, 1, 2, 3, -1, 5, 2⟩ : StlRecord)],
      v.z = (⟨-1, 0, 0⟩ : ClutterVertex).z) ∧
    (∃ v ∈ stlVertices [(⟨0, 0, 0, 1, 2, 3, -1, 5, 2⟩ : StlRecord)],
      v.x = (⟨1, 5, 3⟩ : ClutterVertex).x) ∧
    (∃ v ∈ stlVertices [(⟨0, 0, 0, 1, 2, 3, -1, 5, 2⟩ : StlRecord)],
      v.y = (⟨1, 5, 3⟩ : ClutterVertex).y) ∧
    (∃ v ∈ stlVertices [(⟨0, 0, 0, 1, 2, 3, -1, 5, 2⟩ : StlRecord)],
      v.z = (⟨1, 5, 3⟩ : ClutterVertex).z) := by
  have h := C8_bounding_box ⟨0, 0, 0, ⟨0, 0, 0⟩, ⟨0, 0, 0⟩, [], []⟩
    ⟨[⟨0, 0, 0, 1, 2, 3, -1, 5, 2⟩], 1⟩ true
    ⟨G_MAXUINT, 0, 0, ⟨-1, 0, 0⟩, ⟨1, 5, 3⟩, [], [⟨0, 0, 0, 1, 2, 3, -1, 5, 2⟩]⟩
    (by
      norm_num [mash_stl_loader_load, mash_stl_loader_get_indices_type,
        mash_stl_loader_vertex_read_extents, updateExtentsVertex,
        StlRecord.corners, mash_stl_loader_initial_extents,
        G_MAXUINT, G_MAXFLOAT])
    (by simp [stlVertices, StlRecord.corners])
    (by
      intro v hv
      simp only [stlVertices, StlRecord.corners, List.flatMap_cons, List.flatMap_nil,
        List.append_nil, List.mem_cons, List.not_mem_nil, or_false] at hv
      rcases hv with rfl | rfl | rfl <;>
        refine ⟨?_, ?_, ?_, ?_, ?_, ?_⟩ <;> norm_num [G_MAXFLOAT])
  exact h

/-! ## MashData (`mash-data.c`) -/

/-- The payload of `MashDataLoaderData` installed into
`priv->loaded_data` (buffer handles summarized by the mesh statistics and
extents they carry). -/
structure MashDataLoaderData where
  min_index : ℕ
  max_index : ℕ
  n_triangles : ℕ
  min_vertex : ClutterVertex
  max_vertex : ClutterVertex
deriving DecidableEq, Repr

/-- Resource events of `mash_data_load`. -/
inductive MashDataEvent
  | free_old_vbos
deriving DecidableEq, Repr

/-- `mash_data_load`: dispatch on the filename suffix (`.ply` → PLY
loader, `.stl` → STL loader, otherwise fail with
`MASH_DATA_ERROR_UNKNOWN_FORMAT`); run the chosen loader on a fresh
loader object (its outcome is an input here); only on success release the
old buffers (`mash_data_free_vbos`, which frees only handles that are
present) and install the freshly loaded data. -/
def mash_data_load (st : Option MashDataLoaderData) (filename : List Char)
    (plyResult stlResult : Except MashDataError MashDataLoaderData) :
    Except MashDataError Unit × Option MashDataLoaderData × List MashDataEvent :=
  let loader : Option (Except MashDataError MashDataLoaderData) :=
    if (".ply").toList.isSuffixOf filename then some plyResult
    else if (".stl").toList.isSuffixOf filename then some stlResult
    else none
  match loader with
  | none => (.error .unknown_format, st, [])
  | some (.error e) => (.error e, st, [])
  | some (.ok d) => (.ok (), some d, if st.isSome then [.free_old_vbos] else [])

/-- C6: load failure atomicity.  (a) Every failing `mash_data_load` —
loader failure or unknown extension — leaves the previously loaded data
untouched and releases nothing; (b) an unrecognized extension reports
`MASH_DATA_ERROR_UNKNOWN_FORMAT` to the caller; (c) the old buffers are
released only on a successful load (and only when old data was present). -/
theorem C6_load_failure_atomicity (st : Option MashDataLoaderData)
    (filename : List Char)
    (plyResult stlResult : Except MashDataError MashDataLoaderData) :
    (∀ e, (mash_data_load st filename plyResult stlResult).1 = .error e →
      (mash_data_load st filename plyResult stlResult).2.1 = st ∧
      (mash_data_load st filename plyResult stlResult).2.2 = []) ∧
    (¬ (".ply").toList.isSuffixOf filename →
     ¬ (".stl").toList.isSuffixOf filename →
      mash_data_load st filename plyResult stlResult =
        (.error .unknown_format, st, [])) ∧
    ((mash_data_load st filename plyResult stlResult).2.2 ≠ [] →
      (mash_data_load st filename plyResult stlResult).1 = .ok () ∧
      st.isSome = true) := by
  by_cases hp : (".ply").toList.isSuffixOf filename
  · simp only [List.isSuffixOf_iff_suffix] at hp
    have hp2 : ['.', 'p', 'l', 'y'] <:+ filename := hp
    cases plyResult with
    | error e => simp [mash_data_load, hp2]
    | ok d => cases st <;> simp [mash_data_load, hp2]
  · simp only [List.isSuffixOf_iff_suffix] at hp
    have hp2 : ¬ (['.', 'p', 'l', 'y'] <:+ filename) := hp
    by_cases hs : (".stl").toList.isSuffixOf filename
    · simp only [List.isSuffixOf_iff_suffix] at hs
      have hs2 : ['.', 's', 't', 'l'] <:+ filename := hs
      cases stlResult with
      | error e => simp [mash_data_load, hp2, hs2]
      | ok d => cases st <;> simp [mash_data_load, hp2, hs2]
    · simp only [List.isSuffixOf_iff_suffix] at hs
      have hs2 : ¬ (['.', 's', 't', 'l'] <:+ filename) := hs
      simp [mash_data_load, hp2, hs2]

/-- C6 witness: a concrete load of a file with an unrecognized extension
fails with `unknown_format` and leaves a concrete previously loaded mesh
in place. -/
theorem C6_load_failure_atomicity_witness :
    mash_data_load (some ⟨0, 2, 1, ⟨0, 0, 0⟩, ⟨1, 1, 1⟩⟩)
      ("model.xyz").toList (.ok ⟨0, 0, 0, ⟨0, 0, 0⟩, ⟨0, 0, 0⟩⟩)
      (.ok ⟨0, 0, 0, ⟨0, 0, 0⟩, ⟨0, 0, 0⟩⟩) =
      (.error .unknown_format, some ⟨0, 2, 1, ⟨0, 0, 0⟩, ⟨1, 1, 1⟩⟩, []) :=
  (C6_load_failure_atomicity (some ⟨0, 2, 1, ⟨0, 0, 0⟩, ⟨1, 1, 1⟩⟩)
      ("model.xyz").toList (.ok ⟨0, 0, 0, ⟨0, 0, 0⟩, ⟨0, 0, 0⟩⟩)
      (.ok ⟨0, 0, 0, ⟨0, 0, 0⟩, ⟨0, 0, 0⟩⟩)).2.1
    (by decide) (by decide)

/-! ## Point and spot light shader contributions
(`mash-point-light.c`, `mash-spot-light.c`)

The GLSL snippet of each light type is transcribed statement by statement
into a function over exact rationals.  The GLSL builtins are external: a
`GlslEnv` supplies `sqrt` (for `length`) and `pow`.  The returned vector
is the value the snippet adds to `gl_FrontColor.xyz`. -/

/-- A GLSL `vec3` over exact rationals. -/
abbrev Vec3q := ℚ × ℚ × ℚ

/-- `dot`. -/
def vdot (a b : Vec3q) : ℚ := a.1 * b.1 + a.2.1 * b.2.1 + a.2.2 * b.2.2

def vadd (a b : Vec3q) : Vec3q := (a.1 + b.1, a.2.1 + b.2.1, a.2.2 + b.2.2)

def vsub (a b : Vec3q) : Vec3q := (a.1 - b.1, a.2.1 - b.2.1, a.2.2 - b.2.2)

def vneg (a : Vec3q) : Vec3q := (-a.1, -a.2.1, -a.2.2)

/-- Scalar multiple. -/
def vsmul (s : ℚ) (a : Vec3q) : Vec3q := (s * a.1, s * a.2.1, s * a.2.2)

/-- Componentwise product (color modulation). -/
def vmulc (a b : Vec3q) : Vec3q := (a.1 * b.1, a.2.1 * b.2.1, a.2.2 * b.2.2)

/-- Componentwise division by a scalar (`v / s`, `v /= s`). -/
def vdivs (a : Vec3q) (s : ℚ) : Vec3q := (a.1 / s, a.2.1 / s, a.2.2 / s)

/-- The GLSL builtins used by the snippets, supplied externally. -/
structure GlslEnv where
  sqrt : ℚ → ℚ
  pow : ℚ → ℚ → ℚ

/-- GLSL `length`. -/
def glsl_length (env : GlslEnv) (v : Vec3q) : ℚ := env.sqrt (vdot v v)

/-- GLSL `normalize`. -/
def glsl_normalize (env : GlslEnv) (v : Vec3q) : Vec3q :=
  vdivs v (glsl_length env v)

/-- The material values the snippets read from `gl_FrontMaterial`
(`.rgb` of the colors, and the shininess). -/
structure GlFrontMaterial where
  ambient : Vec3q
  diffuse : Vec3q
  specular : Vec3q
  shininess : ℚ

/-- `mash_point_light_shader` (`mash-point-light.c`), evaluated at one
vertex: ambient plus (when facing the light) diffuse and specular terms,
then `lit_color$ /= dot (attenuation$, vec3 (1.0, d$, d$ * d$))`, added to
`gl_FrontColor.xyz`. -/
def mash_point_light_shader_eval (env : GlslEnv) (mat : GlFrontMaterial)
    (ambient_light diffuse_light specular_light : Vec3q)
    (attenuation : Vec3q) (light_eye_coord eye_coord normal : Vec3q) : Vec3q :=
  let light_vec := vsub light_eye_coord eye_coord
  let d := glsl_length env light_vec
  let light_vec := vdivs light_vec d
  let lit_color := vmulc mat.ambient ambient_light
  let diffuse_factor := max 0 (vdot light_vec normal)
  let lit_color :=
    if diffuse_factor > 0 then
      let lit_color :=
        vadd lit_color (vsmul diffuse_factor (vmulc mat.diffuse diffuse_light))
      let half_vector := glsl_normalize env (vadd light_vec (0, 0, 1))
      let spec_factor := max 0 (vdot half_vector normal)
      let spec_power := env.pow spec_factor mat.shininess
      vadd lit_color (vsmul spec_power (vmulc mat.specular specular_light))
    else lit_color
  vdivs lit_color (vdot attenuation (1, d, d * d))

/-- `mash_spot_light_shader` (`mash-spot-light.c`), evaluated at one
vertex: zero outside the cone (`spot_cos$ > spot_cos_cutoff$` is strict);
inside, ambient plus (when facing the light) diffuse and specular terms,
then `att = dot (attenuation$, vec3 (1.0, d$, d$ * d$))`,
`att *= pow (spot_cos$, spot_exponent$)`, and
`gl_FrontColor.xyz += lit_color$ * att`. -/
def mash_spot_light_shader_eval (env : GlslEnv) (mat : GlFrontMaterial)
    (ambient_light diffuse_light specular_light : Vec3q)
    (attenuation : Vec3q) (light_eye_coord eye_coord normal : Vec3q)
    (spot_direction : Vec3q) (spot_cos_cutoff spot_exponent : ℚ) : Vec3q :=
  let light_vec := vsub light_eye_coord eye_coord
  let d := glsl_length env light_vec
  let light_vec := vdivs light_vec d
  let spot_cos := vdot (vneg light_vec) spot_direction
  if spot_cos > spot_cos_cutoff then
    let lit_color := vmulc mat.ambient ambient_light
    let diffuse_factor := max 0 (vdot light_vec normal)
    let lit_color :=
      if diffuse_factor > 0 then
        let lit_color :=
          vadd lit_color (vsmul diffuse_factor (vmulc mat.diffuse diffuse_light))
        let half_vector := glsl_normalize env (vadd light_vec (0, 0, 1))
        let spec_factor := max 0 (vdot half_vector normal)
        let spec_power := env.pow spec_factor mat.shininess
        vadd lit_color (vsmul spec_power (vmulc mat.specular specular_light))
      else lit_color
    let att := vdot attenuation (1, d, d * d)
    let att := att * env.pow spot_cos spot_exponent
    vsmul att lit_color
  else (0, 0, 0)

/-- C2: the spot light does NOT divide the lit color by the attenuation
value — it multiplies by it (`lit_color$ * att` instead of the point
light's `lit_color$ /= …`).  At a concrete in-cone vertex with constant
attenuation 2 (distance `d = 1`, so `dot (attenuation, [1, d, d*d]) = 2`)
and spot exponent 0 (`pow (spot_cos, 0) = 1`), the interior lit color is
`(1,1,1)`; the point light path yields the claimed `(1/2, 1/2, 1/2)`,
while the spot light yields `(2, 2, 2)` — double, not half. -/
theorem C2_spot_attenuation_multiplies :
    let env : GlslEnv :=
      ⟨fun q => if q = 4 then 2 else if q = 1 then 1 else 0,
       fun b e => if e = 0 then 1 else b⟩
    let mat : GlFrontMaterial := ⟨(0, 0, 0), (1, 1, 1), (0, 0, 0), 7⟩
    mash_spot_light_shader_eval env mat (1, 1, 1) (1, 1, 1) (1, 1, 1)
        (2, 0, 0) (0, 0, 1) (0, 0, 0) (0, 0, 1) (0, 0, -1) 0 0 = (2, 2, 2) ∧
    mash_point_light_shader_eval env mat (1, 1, 1) (1, 1, 1) (1, 1, 1)
        (2, 0, 0) (0, 0, 1) (0, 0, 0) (0, 0, 1) = (1 / 2, 1 / 2, 1 / 2) ∧
    ((2, 2, 2) : Vec3q) ≠ (1 / 2, 1 / 2, 1 / 2) := by
  refine ⟨?_, ?_, by norm_num⟩ <;>
    norm_num [mash_spot_light_shader_eval, mash_point_light_shader_eval,
      glsl_normalize, glsl_length, vdot, vadd, vsub, vneg, vsmul, vmulc, vdivs]

/-! ## Light set state machine (`mash-light-set.c`, `mash-light.c`)

State and uniform-upload semantics of `mash_light_set_begin_paint`, the
base-class `mash_light_real_update_uniforms` /
`mash_light_real_generate_shader` (which alone touch the light color
uniforms; the concrete light subclasses chain up to them and upload only
their own non-color uniforms), `mash_light_set_dirty_program`,
`mash_light_set_add_light` / `remove_light`,
`mash_light_set_update_layer_indices`, and `mash_light_set_get_pipeline`.
Cogl is external: a pipeline carries its validity bit, its
uniform-location lookup, and the material properties read back from it;
the inverse of the current modelview matrix (computed by
`cogl_get_modelview_matrix` + `cogl_matrix_get_inverse`) is an input. -/

/-- A 4-component float color as read by `cogl_pipeline_get_emission`
and friends. -/
abbrev Vec4q := ℚ × ℚ × ℚ × ℚ

/-- The Cogl pipeline as seen by this code. -/
structure CoglPipeline where
  valid : Bool
  uniform_location : List Char → ℤ
  emission : Vec4q
  ambient : Vec4q
  diffuse : Vec4q
  specular : Vec4q
  shininess : ℚ

/-- A `CoglMatrix` (field `ij` is row `i`, column `j`). -/
structure CoglMatrix where
  xx : ℚ
  xy : ℚ
  xz : ℚ
  xw : ℚ
  yx : ℚ
  yy : ℚ
  yz : ℚ
  yw : ℚ
  zx : ℚ
  zy : ℚ
  zz : ℚ
  zw : ℚ
  wx : ℚ
  wy : ℚ
  wz : ℚ
  ww : ℚ
deriving DecidableEq, Repr

/-- A 3×3 matrix (row-indexed fields). -/
structure Mat3 where
  m00 : ℚ
  m01 : ℚ
  m02 : ℚ
  m10 : ℚ
  m11 : ℚ
  m12 : ℚ
  m20 : ℚ
  m21 : ℚ
  m22 : ℚ
deriving DecidableEq, Repr

/-- Truncation of a 4×4 matrix to its 3×3 linear part. -/
def CoglMatrix.linear3 (m : CoglMatrix) : Mat3 :=
  ⟨m.xx, m.xy, m.xz, m.yx, m.yy, m.yz, m.zx, m.zy, m.zz⟩

def Mat3.transpose (a : Mat3) : Mat3 :=
  ⟨a.m00, a.m10, a.m20, a.m01, a.m11, a.m21, a.m02, a.m12, a.m22⟩

/-- Column-major serialization: the layout
`cogl_pipeline_set_uniform_matrix (…, transpose = FALSE, array)` expects. -/
def Mat3.columnMajor (a : Mat3) : List ℚ :=
  [a.m00, a.m10, a.m20, a.m01, a.m11, a.m21, a.m02, a.m12, a.m22]

/-- `mash_light_set_begin_paint`, lines 480–490: the nine floats written
into `transpose_matrix` from the inverse modelview matrix, in order. -/
def normal_matrix_array (inv : CoglMatrix) : List ℚ :=
  [inv.xx, inv.xy, inv.xz, inv.yx, inv.yy, inv.yz, inv.zx, inv.zy, inv.zz]

/-- Base-class per-light state (`MashLightPrivate`): the unique id behind
`unique_str`, the color state, the cached color uniform locations and
their staleness, and the cached modelview flag. -/
structure MashLight where
  gid : ℕ
  colors : MashLightColorState
  uniform_locations : ℤ × ℤ × ℤ
  uniform_locations_dirty : Bool
  modelview_matrix_dirty : Bool
deriving DecidableEq, Repr

/-- GPU uniform uploads observable during a paint. -/
inductive UniformEvent
  | color (location : ℤ) (value : Vec3q)
  | normal_matrix (location : ℤ) (arr : List ℚ)
  | material_vec (location : ℤ) (value : Vec4q)
  | material_float (location : ℤ) (value : ℚ)
deriving DecidableEq, Repr

/-- The float vector uploaded for a light color
(`color->red / 255.0f`, …). -/
def clutter_color_to_vec (c : ClutterColor) : Vec3q :=
  ((c.red : ℚ) / 255, (c.green : ℚ) / 255, (c.blue : ℚ) / 255)

/-- `mash_light_get_uniform_location`: query the program for
`name ++ unique_str`. -/
def mash_light_get_uniform_location (p : CoglPipeline) (l : MashLight)
    (name : List Char) : ℤ :=
  p.uniform_location (name ++ mash_light_unique_str l.gid)

/-- `mash_light_real_update_uniforms`: mark the modelview cache dirty,
re-resolve the three color uniform locations when stale, upload each
color whose dirty bit is set, clear the dirty bits. -/
def mash_light_real_update_uniforms (p : CoglPipeline) (l : MashLight) :
    MashLight × List UniformEvent :=
  let l1 : MashLight := { l with modelview_matrix_dirty := true }
  let l2 :=
    if l1.uniform_locations_dirty then
      { l1 with
        uniform_locations :=
          (mash_light_get_uniform_location p l1 ("ambient_light").toList,
           mash_light_get_uniform_location p l1 ("diffuse_light").toList,
           mash_light_get_uniform_location p l1 ("specular_light").toList)
        uniform_locations_dirty := false }
    else l1
  let evs :=
    (if l2.colors.dirty_uniforms.testBit 0 then
      [UniformEvent.color l2.uniform_locations.1
        (clutter_color_to_vec l2.colors.ambient)]
     else []) ++
    (if l2.colors.dirty_uniforms.testBit 1 then
      [UniformEvent.color l2.uniform_locations.2.1
        (clutter_color_to_vec l2.colors.diffuse)]
     else []) ++
    (if l2.colors.dirty_uniforms.testBit 2 then
      [UniformEvent.color l2.uniform_locations.2.2
        (clutter_color_to_vec l2.colors.specular)]
     else [])
  ({ l2 with colors := { l2.colors with dirty_uniforms := 0 } }, evs)

/-- State effect of `mash_light_real_generate_shader`: a shader rebuild
marks the uniform locations stale and all three colors dirty
(`(1 << MASH_LIGHT_COLOR_COUNT) - 1 = 7`). -/
def mash_light_real_generate_shader_state (l : MashLight) : MashLight :=
  { l with
    uniform_locations_dirty := true
    colors := { l.colors with dirty_uniforms := 7 } }

/-- The light set state (`MashLightSetPrivate`). -/
structure MashLightSetPrivate where
  lights : List MashLight
  layer_indices : List ℤ
  pipeline_created : Bool
  uniforms_dirty : Bool
  normal_matrix_uniform : ℤ
  material_uniforms : ℤ × ℤ × ℤ × ℤ × ℤ

/-- `mash_light_set_dirty_program`: invalidate by clearing the light
set's `pipeline_created` flag (nothing else; see the TODO in the source). -/
def mash_light_set_dirty_program (st : MashLightSetPrivate) : MashLightSetPrivate :=
  { st with pipeline_created := false }

/-- `mash_light_set_add_light`: prepend to the `GSList` and dirty the
program. -/
def mash_light_set_add_light (st : MashLightSetPrivate) (l : MashLight) :
    MashLightSetPrivate :=
  mash_light_set_dirty_program { st with lights := l :: st.lights }

/-- Remove the first list node holding the given light (identity modelled
by the unique actor id), reporting whether one was found. -/
def removeFirstLight : List MashLight → ℕ → List MashLight × Bool
  | [], _ => ([], false)
  | l :: ls, gid =>
    if l.gid = gid then (ls, true)
    else
      let r := removeFirstLight ls gid
      (l :: r.1, r.2)

/-- `mash_light_set_remove_light`: O(n) removal by identity; the program
is dirtied only when a member was actually removed. -/
def mash_light_set_remove_light (st : MashLightSetPrivate) (gid : ℕ) :
    MashLightSetPrivate :=
  let r := removeFirstLight st.lights gid
  if r.2 then mash_light_set_dirty_program { st with lights := r.1 }
  else { st with lights := r.1 }

/-- State effect of `mash_light_set_get_pipeline` (the program rebuild):
every light's `generate_shader` runs (marking its color uniforms dirty
and its locations stale), and the set re-resolves the normal matrix and
the five material uniform locations on the pipeline. -/
def mash_light_set_get_pipeline (st : MashLightSetPrivate) (p : CoglPipeline) :
    MashLightSetPrivate :=
  { st with
    lights := st.lights.map mash_light_real_generate_shader_state
    normal_matrix_uniform := p.uniform_location ("mash_normal_matrix").toList
    material_uniforms :=
      (p.uniform_location ("mash_material.emission").toList,
       p.uniform_location ("mash_material.ambient").toList,
       p.uniform_location ("mash_material.diffuse").toList,
       p.uniform_location ("mash_material.specular").toList,
       p.uniform_location ("mash_material.shininess").toList) }

/-- The `for (l = priv->lights; l; l = l->next) mash_light_update_uniforms`
loop of `begin_paint` (color-uniform part, i.e. the base class every
subclass chains up to). -/
def mash_light_set_update_lights (p : CoglPipeline) :
    List MashLight → List MashLight × List UniformEvent
  | [] => ([], [])
  | l :: ls =>
    let r := mash_light_real_update_uniforms p l
    let rs := mash_light_set_update_lights p ls
    (r.1 :: rs.1, r.2 ++ rs.2)

/-- The normal-matrix upload of `begin_paint`: performed whenever the
location resolved (`priv->normal_matrix_uniform != -1`), with the
transposed 3×3 inverse-modelview array. -/
def mash_light_set_normal_matrix_events (st : MashLightSetPrivate)
    (modelview_inverse : CoglMatrix) : List UniformEvent :=
  if st.normal_matrix_uniform ≠ -1 then
    [UniformEvent.normal_matrix st.normal_matrix_uniform
      (normal_matrix_array modelview_inverse)]
  else []

/-- The material-property uploads of `begin_paint`: one per entry of
`mash_light_set_material_properties` whose location resolved — emission,
ambient, diffuse, specular (as 4-float colors read from the pipeline) and
shininess (through the clamp wrapper). -/
def mash_light_set_material_events (st : MashLightSetPrivate)
    (p : CoglPipeline) : List UniformEvent :=
  (if st.material_uniforms.1 ≠ -1 then
    [UniformEvent.material_vec st.material_uniforms.1 p.emission] else []) ++
  (if st.material_uniforms.2.1 ≠ -1 then
    [UniformEvent.material_vec st.material_uniforms.2.1 p.ambient] else []) ++
  (if st.material_uniforms.2.2.1 ≠ -1 then
    [UniformEvent.material_vec st.material_uniforms.2.2.1 p.diffuse] else []) ++
  (if st.material_uniforms.2.2.2.1 ≠ -1 then
    [UniformEvent.material_vec st.material_uniforms.2.2.2.1 p.specular] else []) ++
  (if st.material_uniforms.2.2.2.2 ≠ -1 then
    [UniformEvent.material_float st.material_uniforms.2.2.2.2
      (mash_light_set_get_shininess_wrapper p.shininess)] else [])

/-- `mash_light_set_begin_paint`: bail out on an invalid pipeline; when
`uniforms_dirty` is set, let every light update its uniforms (the flag
itself is NOT cleared — the clearing statement is commented out in the
source); then always upload the normal matrix (when its location
resolved) computed from the inverse modelview matrix, and always upload
the five material properties read from the pipeline (shininess through
the clamp wrapper). -/
def mash_light_set_begin_paint (st : MashLightSetPrivate) (p : CoglPipeline)
    (modelview_inverse : CoglMatrix) : MashLightSetPrivate × List UniformEvent :=
  if ¬ p.valid then (st, [])
  else
    ({ st with
        lights :=
          if st.uniforms_dirty then (mash_light_set_update_lights p st.lights).1
          else st.lights },
     (if st.uniforms_dirty then (mash_light_set_update_lights p st.lights).2
      else []) ++
       mash_light_set_normal_matrix_events st modelview_inverse ++
       mash_light_set_material_events st p)

/-- The light-color uploads among a list of uniform events. -/
def colorUploads (evs : List UniformEvent) : List UniformEvent :=
  evs.filter fun e =>
    match e with
    | .color _ _ => true
    | _ => false

/-- After an update, a light's color dirty bits are clear. -/
theorem update_uniforms_clears_dirty (p : CoglPipeline) (l : MashLight) :
    (mash_light_real_update_uniforms p l).1.colors.dirty_uniforms = 0 := rfl

/-- A light with clear dirty bits uploads no colors. -/
theorem update_uniforms_no_events (p : CoglPipeline) (l : MashLight)
    (h : l.colors.dirty_uniforms = 0) :
    (mash_light_real_update_uniforms p l).2 = [] := by
  by_cases hl : l.uniform_locations_dirty <;>
    simp [mash_light_real_update_uniforms, hl, h, Nat.zero_testBit]

/-- After the update loop, every light's color dirty bits are clear. -/
theorem update_lights_all_clean (p : CoglPipeline) (ls : List MashLight) :
    ∀ l ∈ (mash_light_set_update_lights p ls).1, l.colors.dirty_uniforms = 0 := by
  induction ls with
  | nil => intro l hl; simp [mash_light_set_update_lights] at hl
  | cons a ls ih =>
    intro l hl
    rw [mash_light_set_update_lights] at hl
    rcases List.mem_cons.mp hl with h | h
    · rw [h]; exact update_uniforms_clears_dirty p a
    · exact ih l h

/-- The update loop over clean lights uploads nothing. -/
theorem update_lights_no_events (p : CoglPipeline) (ls : List MashLight)
    (h : ∀ l ∈ ls, l.colors.dirty_uniforms = 0) :
    (mash_light_set_update_lights p ls).2 = [] := by
  induction ls with
  | nil => rfl
  | cons a ls ih =>
    rw [mash_light_set_update_lights]
    rw [update_uniforms_no_events p a (h a (List.mem_cons_self _ _)),
      ih (fun l hl => h l (List.mem_cons_of_mem _ hl))]
    rfl

theorem colorUploads_append (a b : List UniformEvent) :
    colorUploads (a ++ b) = colorUploads a ++ colorUploads b := by
  simp [colorUploads]

/-- The normal-matrix upload is not a color upload. -/
theorem colorUploads_normal_matrix (st : MashLightSetPrivate) (inv : CoglMatrix) :
    colorUploads (mash_light_set_normal_matrix_events st inv) = [] := by
  rw [mash_light_set_normal_matrix_events]
  split_ifs <;> simp [colorUploads]

/-- The material uploads are not color uploads. -/
theorem colorUploads_material (st : MashLightSetPrivate) (p : CoglPipeline) :
    colorUploads (mash_light_set_material_events st p) = [] := by
  rw [mash_light_set_material_events]
  simp only [colorUploads_append]
  split_ifs <;> simp [colorUploads]

/-- C3: dirty-uniform idempotence of `begin_paint`.  Two consecutive
calls with no intervening light property change: the second call uploads
no per-light color uniforms at all (the first uploads exactly the stale
ones), while each of the two calls re-uploads the normal matrix — the
transpose of the 3×3 truncation of the inverse of the current modelview
matrix, serialized column-major — and all five material property values
read from the supplied material/pipeline (shininess through the clamp
wrapper).  (Locations are required to have resolved, i.e. differ from
`-1`; otherwise the code skips the corresponding upload.) -/
theorem C3_dirty_uniform_idempotence (st : MashLightSetPrivate) (p : CoglPipeline)
    (inv : CoglMatrix)
    (hvalid : p.valid = true)
    (hnm : st.normal_matrix_uniform ≠ -1)
    (hm1 : st.material_uniforms.1 ≠ -1)
    (hm2 : st.material_uniforms.2.1 ≠ -1)
    (hm3 : st.material_uniforms.2.2.1 ≠ -1)
    (hm4 : st.material_uniforms.2.2.2.1 ≠ -1)
    (hm5 : st.material_uniforms.2.2.2.2 ≠ -1) :
    colorUploads (mash_light_set_begin_paint
      (mash_light_set_begin_paint st p inv).1 p inv).2 = [] ∧
    (UniformEvent.normal_matrix st.normal_matrix_uniform
        ((inv.linear3.transpose).columnMajor) ∈
      (mash_light_set_begin_paint st p inv).2 ∧
     UniformEvent.normal_matrix st.normal_matrix_uniform
        ((inv.linear3.transpose).columnMajor) ∈
      (mash_light_set_begin_paint
        (mash_light_set_begin_paint st p inv).1 p inv).2) ∧
    (∀ ev ∈ [UniformEvent.material_vec st.material_uniforms.1 p.emission,
             UniformEvent.material_vec st.material_uniforms.2.1 p.ambient,
             UniformEvent.material_vec st.material_uniforms.2.2.1 p.diffuse,
             UniformEvent.material_vec st.material_uniforms.2.2.2.1 p.specular,
             UniformEvent.material_float st.material_uniforms.2.2.2.2
               (mash_light_set_get_shininess_wrapper p.shininess)],
      ev ∈ (mash_light_set_begin_paint st p inv).2 ∧
      ev ∈ (mash_light_set_begin_paint
        (mash_light_set_begin_paint st p inv).1 p inv).2) := by
  have harr : (inv.linear3.transpose).columnMajor = normal_matrix_array inv := rfl
  -- the first call, on a valid pipeline, leaves every set-level field as is
  -- and only replaces the lights
  have hfst : mash_light_set_begin_paint st p inv =
      ({ st with
          lights :=
            if st.uniforms_dirty then (mash_light_set_update_lights p st.lights).1
            else st.lights },
       (if st.uniforms_dirty then (mash_light_set_update_lights p st.lights).2
        else []) ++
         mash_light_set_normal_matrix_events st inv ++
         mash_light_set_material_events st p) := by
    rw [mash_light_set_begin_paint, if_neg (by simp [hvalid])]
  set st1 := (mash_light_set_begin_paint st p inv).1 with hst1
  have hst1fields : st1.uniforms_dirty = st.uniforms_dirty ∧
      st1.normal_matrix_uniform = st.normal_matrix_uniform ∧
      st1.material_uniforms = st.material_uniforms ∧
      st1.lights = (if st.uniforms_dirty then
        (mash_light_set_update_lights p st.lights).1 else st.lights) := by
    rw [hst1, hfst]
    exact ⟨rfl, rfl, rfl, rfl⟩
  have hnm1 : mash_light_set_normal_matrix_events st1 inv =
      mash_light_set_normal_matrix_events st inv := by
    rw [mash_light_set_normal_matrix_events, mash_light_set_normal_matrix_events,
      hst1fields.2.1]
  have hmat1 : mash_light_set_material_events st1 p =
      mash_light_set_material_events st p := by
    rw [mash_light_set_material_events, mash_light_set_material_events,
      hst1fields.2.2.1]
  have hsnd : mash_light_set_begin_paint st1 p inv =
      ({ st1 with
          lights :=
            if st1.uniforms_dirty then (mash_light_set_update_lights p st1.lights).1
            else st1.lights },
       (if st1.uniforms_dirty then (mash_light_set_update_lights p st1.lights).2
        else []) ++
         mash_light_set_normal_matrix_events st1 inv ++
         mash_light_set_material_events st1 p) := by
    rw [mash_light_set_begin_paint, if_neg (by simp [hvalid])]
  -- the second call performs no color uploads
  have hsecond_lights : (if st1.uniforms_dirty then
      (mash_light_set_update_lights p st1.lights).2 else []) = [] := by
    by_cases hd : st.uniforms_dirty
    · rw [if_pos (hst1fields.1.trans hd)]
      apply update_lights_no_events
      rw [hst1fields.2.2.2, if_pos hd]
      exact update_lights_all_clean p st.lights
    · rw [if_neg]
      rw [hst1fields.1]
      exact hd
  refine ⟨?_, ⟨?_, ?_⟩, ?_⟩
  · rw [hsnd]
    simp only [hsecond_lights, List.nil_append, colorUploads_append,
      colorUploads_normal_matrix, colorUploads_material, hnm1, hmat1,
      List.append_nil]
  · rw [hfst, harr]
    apply List.mem_append_left
    apply List.mem_append_right
    rw [mash_light_set_normal_matrix_events, if_pos hnm]
    exact List.mem_singleton.mpr rfl
  · rw [hsnd, harr, hnm1]
    apply List.mem_append_left
    apply List.mem_append_right
    rw [mash_light_set_normal_matrix_events, if_pos hnm]
    exact List.mem_singleton.mpr rfl
  · intro ev hev
    have hmem : ev ∈ mash_light_set_material_events st p := by
      simp only [List.mem_cons, List.not_mem_nil, or_false] at hev
      rw [mash_light_set_material_events]
      rcases hev with rfl | rfl | rfl | rfl | rfl
      · exact List.mem_append_left _ (List.mem_append_left _
          (List.mem_append_left _ (List.mem_append_left _
            (by rw [if_pos hm1]; exact List.mem_singleton.mpr rfl))))
      · exact List.mem_append_left _ (List.mem_append_left _
          (List.mem_append_left _ (List.mem_append_right _
            (by rw [if_pos hm2]; exact List.mem_singleton.mpr rfl))))
      · exact List.mem_append_left _ (List.mem_append_left _
          (List.mem_append_right _
            (by rw [if_pos hm3]; exact List.mem_singleton.mpr rfl)))
      · exact List.mem_append_left _ (List.mem_append_right _
          (by rw [if_pos hm4]; exact List.mem_singleton.mpr rfl))
      · exact List.mem_append_right _
          (by rw [if_pos hm5]; exact List.mem_singleton.mpr rfl)
    constructor
    · rw [hfst]
      exact List.mem_append_right _ hmem
    · rw [hsnd, hmat1]
      exact List.mem_append_right _ hmem

/-- A concrete light set state for the C3 witness: one member light with
all colors dirty, uniforms stale, all locations resolved. -/
def c3_state : MashLightSetPrivate :=
  { lights := [⟨7, ⟨mash_light_default_color, mash_light_default_color,
      mash_light_default_color, 7, ⟨0, 0, 0, 0⟩, ⟨0, 0, 0, 0⟩⟩, (0, 0, 0), true, true⟩]
    layer_indices := []
    pipeline_created := true
    uniforms_dirty := true
    normal_matrix_uniform := 3
    material_uniforms := (10, 11, 12, 13, 14) }

/-- A concrete valid pipeline for the C3 witness. -/
def c3_pipeline : CoglPipeline :=
  { valid := true
    uniform_location := fun _ => 5
    emission := (0, 0, 0, 1)
    ambient := (1, 1, 1, 1)
    diffuse := (1, 0, 0, 1)
    specular := (0, 1, 0, 1)
    shininess := 0 }

/-- A concrete inverse modelview matrix for the C3 witness. -/
def c3_inv : CoglMatrix :=
  ⟨1, 2, 3, 0, 4, 5, 6, 0, 7, 8, 9, 0, 0, 0, 0, 1⟩

/-- C3 witness: the idempotence theorem applied at the concrete state,
pipeline and matrix. -/
theorem C3_dirty_uniform_idempotence_witness :
    colorUploads (mash_light_set_begin_paint
      (mash_light_set_begin_paint c3_state c3_pipeline c3_inv).1
      c3_pipeline c3_inv).2 = [] ∧
    (UniformEvent.normal_matrix c3_state.normal_matrix_uniform
        ((c3_inv.linear3.transpose).columnMajor) ∈
      (mash_light_set_begin_paint c3_state c3_pipeline c3_inv).2 ∧
     UniformEvent.normal_matrix c3_state.normal_matrix_uniform
        ((c3_inv.linear3.transpose).columnMajor) ∈
      (mash_light_set_begin_paint
        (mash_light_set_begin_paint c3_state c3_pipeline c3_inv).1
        c3_pipeline c3_inv).2) ∧
    (∀ ev ∈ [UniformEvent.material_vec c3_state.material_uniforms.1
               c3_pipeline.emission,
             UniformEvent.material_vec c3_state.material_uniforms.2.1
               c3_pipeline.ambient,
             UniformEvent.material_vec c3_state.material_uniforms.2.2.1
               c3_pipeline.diffuse,
             UniformEvent.material_vec c3_state.material_uniforms.2.2.2.1
               c3_pipeline.specular,
             UniformEvent.material_float c3_state.material_uniforms.2.2.2.2
               (mash_light_set_get_shininess_wrapper c3_pipeline.shininess)],
      ev ∈ (mash_light_set_begin_paint c3_state c3_pipeline c3_inv).2 ∧
      ev ∈ (mash_light_set_begin_paint
        (mash_light_set_begin_paint c3_state c3_pipeline c3_inv).1
        c3_pipeline c3_inv).2) :=
  C3_dirty_uniform_idempotence c3_state c3_pipeline c3_inv rfl
    (by decide) (by decide) (by decide) (by decide) (by decide) (by decide)

/-! ## Layer-index reconciliation and model paint
(`mash-light-set.c`, `mash-model.c`) -/

/-- The fold state of `update_layer_indices_cb`
(`UpdateLayerIndicesData` plus the array being reconciled). -/
structure ULIState where
  cached : List ℤ
  is_matching : Bool
  index_num : ℕ
deriving DecidableEq, Repr

/-- `update_layer_indices_cb`: walk the pipeline layers; while they match
the cached array keep matching; at the first mismatch truncate the cache
to the matched prefix; once mismatched append every further layer. -/
def update_layer_indices_cb (s : ULIState) (layer_index : ℤ) : ULIState :=
  let s1 :=
    if s.is_matching then
      (if s.index_num ≥ s.cached.length ∨ s.cached[s.index_num]? ≠ some layer_index
       then { s with cached := s.cached.take s.index_num, is_matching := false }
       else s)
    else s
  let s2 :=
    if ¬ s1.is_matching then { s1 with cached := s1.cached ++ [layer_index] }
    else s1
  { s2 with index_num := s2.index_num + 1 }

/-- `mash_light_set_update_layer_indices`: reconcile the cached layer
indices against the pipeline's; when they differ, resize the cache to the
walked prefix, dirty the program and report a change. -/
def mash_light_set_update_layer_indices (st : MashLightSetPrivate)
    (pipelineLayers : List ℤ) : MashLightSetPrivate × Bool :=
  let s := pipelineLayers.foldl update_layer_indices_cb ⟨st.layer_indices, true, 0⟩
  if ¬ s.is_matching ∨ s.index_num ≠ s.cached.length then
    (mash_light_set_dirty_program { st with layer_indices := s.cached.take s.index_num },
     true)
  else
    ({ st with layer_indices := s.cached }, false)

/-- The model actor state relevant to paint (`MashModelPrivate`):
whether data is attached, and the model's own `pipeline_created` flag. -/
structure MashModelPrivate where
  has_data : Bool
  pipeline_created : Bool
deriving DecidableEq, Repr

/-- Observable effects of one `mash_model_paint`. -/
inductive PaintEvent
  | rebuild (light_gids : List ℕ)
  | uniform (ev : UniformEvent)
  | draw
deriving DecidableEq, Repr

/-- The shader rebuilds among paint events. -/
def rebuildEvents (evs : List PaintEvent) : List PaintEvent :=
  evs.filter fun e =>
    match e with
    | .rebuild _ => true
    | _ => false

/-- `mash_model_paint` (with a light set attached): silently skip when no
data or no valid pipeline; reconcile the layer indices (a change clears
the MODEL's `pipeline_created` flag); when the MODEL's flag is clear,
regenerate the program from the light set's current lights
(`mash_light_set_get_pipeline`) and set the flag; then
`mash_light_set_begin_paint`, then render. -/
def mash_model_paint (model : MashModelPrivate) (ls : MashLightSetPrivate)
    (p : CoglPipeline) (pipelineLayers : List ℤ) (inv : CoglMatrix) :
    MashModelPrivate × MashLightSetPrivate × List PaintEvent :=
  if ¬ model.has_data ∨ ¬ p.valid then (model, ls, [])
  else
    let ul := mash_light_set_update_layer_indices ls pipelineLayers
    let model1 := if ul.2 then { model with pipeline_created := false } else model
    let r :=
      if ¬ model1.pipeline_created then
        ({ model1 with pipeline_created := true },
         mash_light_set_get_pipeline ul.1 p,
         [PaintEvent.rebuild (ul.1.lights.map MashLight.gid)])
      else (model1, ul.1, ([] : List PaintEvent))
    let bp := mash_light_set_begin_paint r.2.1 p inv
    (r.1, bp.1, r.2.2 ++ bp.2.map PaintEvent.uniform ++ [PaintEvent.draw])

/-- C1: program cache coherence FAILS on the code.  `mash_light_set_add_light`
invalidates via `mash_light_set_dirty_program`, which only clears the
LIGHT SET's `pipeline_created` flag — a flag nothing ever reads — while
`mash_model_paint` gates the rebuild on the MODEL's own `pipeline_created`
flag, which stays `true` after the first paint.  Concretely: a model
paints once (a rebuild occurs), a light is added (the set's flag goes
stale and the collection changes), and the next paint with unchanged
pipeline layers performs NO rebuild, reusing the cached program built
without the new light.  (The reuse half of the claim — no rebuild without
an intervening mutation — does hold, but the invalidation half does not.) -/
theorem C1_no_rebuild_after_add_light :
    let model0 : MashModelPrivate := ⟨true, false⟩
    let ls0 : MashLightSetPrivate := ⟨[], [], false, false, 0, (0, 0, 0, 0, 0)⟩
    let l1 : MashLight := ⟨1, ⟨mash_light_default_color, mash_light_default_color,
      mash_light_default_color, 7, ⟨0, 0, 0, 0⟩, ⟨0, 0, 0, 0⟩⟩, (0, 0, 0), true, true⟩
    let r1 := mash_model_paint model0 ls0 c3_pipeline [] c3_inv
    let ls2 := mash_light_set_add_light r1.2.1 l1
    let r2 := mash_model_paint r1.1 ls2 c3_pipeline [] c3_inv
    -- the first paint rebuilt the program
    PaintEvent.rebuild [] ∈ r1.2.2 ∧
    -- the add dirtied the light set's (dead) flag and changed the collection
    ls2.pipeline_created = false ∧
    ls2.lights.map MashLight.gid = [1] ∧
    -- yet the very next paint performs no rebuild at all
    rebuildEvents r2.2.2 = [] := by
  decide

/-! ## Fit-to-allocation transform (`mash-model.c`) -/

/-- A `ClutterActorBox`. -/
structure ClutterActorBox where
  x1 : ℚ
  y1 : ℚ
  x2 : ℚ
  y2 : ℚ
deriving DecidableEq, Repr

/-- The scale/translation computed by `mash_model_allocate`. -/
structure FitParams where
  scale : ℚ
  translate_x : ℚ
  translate_y : ℚ
  translate_z : ℚ
deriving DecidableEq, Repr

/-- `mash_model_calculate_scale`: `G_MAXFLOAT` when the axis is
degenerate, else `target_extents / (max - min)`. -/
def mash_model_calculate_scale (target_extents mn mx : ℚ) : ℚ :=
  if mn = mx then G_MAXFLOAT else target_extents / (mx - mn)

/-- The `min_scale` computation of `mash_model_allocate`: the smaller of
the two per-axis scales, clamped to 0 when it reaches `G_MAXFLOAT`. -/
def mash_model_fit_scale (box : ClutterActorBox)
    (min_vertex max_vertex : ClutterVertex) : ℚ :=
  let min_scale0 :=
    mash_model_calculate_scale (box.x2 - box.x1) min_vertex.x max_vertex.x
  let scale :=
    mash_model_calculate_scale (box.y2 - box.y1) min_vertex.y max_vertex.y
  let min_scale1 := if min_scale0 > scale then scale else min_scale0
  if min_scale1 ≥ G_MAXFLOAT then 0 else min_scale1

/-- The fit branch of `mash_model_allocate`: the uniform scale and the
translation fields, exactly as assigned in the source. -/
def mash_model_allocate_fit (box : ClutterActorBox)
    (min_vertex max_vertex : ClutterVertex) : FitParams :=
  { scale := mash_model_fit_scale box min_vertex max_vertex
    translate_x := (box.x2 - box.x1) / 2 -
      (min_vertex.x + max_vertex.x) / 2 * mash_model_fit_scale box min_vertex max_vertex
    translate_y := (box.y2 - box.y1) / 2 -
      (min_vertex.y + max_vertex.y) / 2 * mash_model_fit_scale box min_vertex max_vertex
    translate_z :=
      -((min_vertex.z + max_vertex.z) / 2) * mash_model_fit_scale box min_vertex max_vertex }

/-- Framebuffer modelview state: the current matrix, represented by the
map it applies to a model-space point, and the saved matrix stack. -/
structure CoglFramebuffer where
  mv : Vec3q → Vec3q
  stack : List (Vec3q → Vec3q)

def cogl_framebuffer_push_matrix (fb : CoglFramebuffer) : CoglFramebuffer :=
  { fb with stack := fb.mv :: fb.stack }

def cogl_framebuffer_pop_matrix (fb : CoglFramebuffer) : CoglFramebuffer :=
  match fb.stack with
  | [] => fb
  | m :: rest => ⟨m, rest⟩

/-- `cogl_framebuffer_translate`: right-multiply the current matrix by a
translation. -/
def cogl_framebuffer_translate (fb : CoglFramebuffer) (tx ty tz : ℚ) :
    CoglFramebuffer :=
  { fb with mv := fun pt => fb.mv (pt.1 + tx, pt.2.1 + ty, pt.2.2 + tz) }

/-- `cogl_framebuffer_scale`: right-multiply the current matrix by a
scale. -/
def cogl_framebuffer_scale (fb : CoglFramebuffer) (sx sy sz : ℚ) :
    CoglFramebuffer :=
  { fb with mv := fun pt => fb.mv (sx * pt.1, sy * pt.2.1, sz * pt.2.2) }

/-- A draw call, with the modelview in effect and the mesh data drawn. -/
inductive RenderEvent
  | draw (mv : Vec3q → Vec3q) (data : MashDataLoaderData)

/-- `mash_model_render_data`: when fit-to-allocation is on, push the
matrix, translate, scale, draw, pop; the mesh data itself is only read. -/
def mash_model_render_data (fb : CoglFramebuffer) (fit_to_allocation : Bool)
    (fp : FitParams) (data : MashDataLoaderData) :
    CoglFramebuffer × MashDataLoaderData × List RenderEvent :=
  if fit_to_allocation then
    let fb1 := cogl_framebuffer_push_matrix fb
    let fb2 := cogl_framebuffer_translate fb1
      fp.translate_x fp.translate_y fp.translate_z
    let fb3 := cogl_framebuffer_scale fb2 fp.scale fp.scale fp.scale
    (cogl_framebuffer_pop_matrix fb3, data, [RenderEvent.draw fb3.mv data])
  else (fb, data, [RenderEvent.draw fb.mv data])

/-- C9: the fit-to-bounds transform.  (a) The computed uniform scale is
the minimum over x and y of allocated extent / model extent, a degenerate
axis (zero model extent) contributing no constraint, and 0 when both axes
are degenerate; (b) the translation maps the model bounding-box center to
the allocation center on x/y and to 0 on z; (c) `render_data` pushes the
transform, draws with it, and pops it — the matrix stack ends as it
began and the mesh data is not mutated.  (The hypotheses record that a
non-degenerate per-axis scale stays below `G_MAXFLOAT`, as it does for
any finite float inputs whose division does not overflow.) -/
theorem C9_fit_to_bounds (box : ClutterActorBox) (mn mx : ClutterVertex)
    (fb : CoglFramebuffer) (data : MashDataLoaderData)
    (hx : mn.x ≠ mx.x → (box.x2 - box.x1) / (mx.x - mn.x) < G_MAXFLOAT)
    (hy : mn.y ≠ mx.y → (box.y2 - box.y1) / (mx.y - mn.y) < G_MAXFLOAT) :
    (mash_model_allocate_fit box mn mx).scale =
      (if mn.x = mx.x ∧ mn.y = mx.y then 0
       else if mn.x = mx.x then (box.y2 - box.y1) / (mx.y - mn.y)
       else if mn.y = mx.y then (box.x2 - box.x1) / (mx.x - mn.x)
       else min ((box.x2 - box.x1) / (mx.x - mn.x))
         ((box.y2 - box.y1) / (mx.y - mn.y))) ∧
    ((mash_model_allocate_fit box mn mx).translate_x +
        (mash_model_allocate_fit box mn mx).scale * ((mn.x + mx.x) / 2) =
      (box.x2 - box.x1) / 2 ∧
     (mash_model_allocate_fit box mn mx).translate_y +
        (mash_model_allocate_fit box mn mx).scale * ((mn.y + mx.y) / 2) =
      (box.y2 - box.y1) / 2 ∧
     (mash_model_allocate_fit box mn mx).translate_z +
        (mash_model_allocate_fit box mn mx).scale * ((mn.z + mx.z) / 2) = 0) ∧
    ((mash_model_render_data fb true (mash_model_allocate_fit box mn mx) data).1 =
        fb ∧
     (mash_model_render_data fb true (mash_model_allocate_fit box mn mx) data).2.1 =
        data ∧
     (mash_model_render_data fb true (mash_model_allocate_fit box mn mx) data).2.2 =
        [RenderEvent.draw
          (fun pt => fb.mv
            ((mash_model_allocate_fit box mn mx).scale * pt.1 +
               (mash_model_allocate_fit box mn mx).translate_x,
             (mash_model_allocate_fit box mn mx).scale * pt.2.1 +
               (mash_model_allocate_fit box mn mx).translate_y,
             (mash_model_allocate_fit box mn mx).scale * pt.2.2 +
               (mash_model_allocate_fit box mn mx).translate_z))
          data]) := by
  refine ⟨?_, ⟨?_, ?_, ?_⟩, rfl, rfl, rfl⟩
  · show mash_model_fit_scale box mn mx = _
    simp only [mash_model_fit_scale, mash_model_calculate_scale]
    by_cases hxe : mn.x = mx.x <;> by_cases hye : mn.y = mx.y
    · simp [hxe, hye]
    · have hry := hy hye
      simp [hxe, hye, gt_iff_lt, ge_iff_le, hry, not_le.mpr hry]
    · have hrx := hx hxe
      simp [hxe, hye, gt_iff_lt, ge_iff_le, not_lt.mpr hrx.le, not_le.mpr hrx]
    · have hrx := hx hxe
      have hry := hy hye
      rcases le_or_lt ((box.x2 - box.x1) / (mx.x - mn.x))
          ((box.y2 - box.y1) / (mx.y - mn.y)) with hle | hlt
      · simp [hxe, hye, gt_iff_lt, ge_iff_le, not_lt.mpr hle,
          not_le.mpr hrx, min_eq_left hle]
      · simp [hxe, hye, gt_iff_lt, ge_iff_le, hlt, not_le.mpr hry,
          min_eq_right hlt.le]
  · show (box.x2 - box.x1) / 2 -
        (mn.x + mx.x) / 2 * mash_model_fit_scale box mn mx +
        mash_model_fit_scale box mn mx * ((mn.x + mx.x) / 2) =
      (box.x2 - box.x1) / 2
    ring
  · show (box.y2 - box.y1) / 2 -
        (mn.y + mx.y) / 2 * mash_model_fit_scale box mn mx +
        mash_model_fit_scale box mn mx * ((mn.y + mx.y) / 2) =
      (box.y2 - box.y1) / 2
    ring
  · show -((mn.z + mx.z) / 2) * mash_model_fit_scale box mn mx +
        mash_model_fit_scale box mn mx * ((mn.z + mx.z) / 2) = 0
    ring

/-- C9 witness: the theorem applied at a concrete allocation, extents,
framebuffer and mesh. -/
theorem C9_fit_to_bounds_witness :
    (mash_model_allocate_fit ⟨0, 0, 100, 50⟩ ⟨0, 0, 0⟩ ⟨10, 10, 10⟩).scale =
      (if (0 : ℚ) = 10 ∧ (0 : ℚ) = 10 then 0
       else if (0 : ℚ) = 10 then (50 - 0) / (10 - 0)
       else if (0 : ℚ) = 10 then (100 - 0) / (10 - 0)
       else min ((100 - 0) / (10 - 0)) ((50 - 0) / (10 - 0))) ∧
    ((mash_model_allocate_fit ⟨0, 0, 100, 50⟩ ⟨0, 0, 0⟩ ⟨10, 10, 10⟩).translate_x +
        (mash_model_allocate_fit ⟨0, 0, 100, 50⟩ ⟨0, 0, 0⟩ ⟨10, 10, 10⟩).scale *
          ((0 + 10) / 2) = (100 - 0) / 2 ∧
     (mash_model_allocate_fit ⟨0, 0, 100, 50⟩ ⟨0, 0, 0⟩ ⟨10, 10, 10⟩).translate_y +
        (mash_model_allocate_fit ⟨0, 0, 100, 50⟩ ⟨0, 0, 0⟩ ⟨10, 10, 10⟩).scale *
          ((0 + 10) / 2) = (50 - 0) / 2 ∧
     (mash_model_allocate_fit ⟨0, 0, 100, 50⟩ ⟨0, 0, 0⟩ ⟨10, 10, 10⟩).translate_z +
        (mash_model_allocate_fit ⟨0, 0, 100, 50⟩ ⟨0, 0, 0⟩ ⟨10, 10, 10⟩).scale *
          ((0 + 10) / 2) = 0) ∧
    ((mash_model_render_data ⟨id, []⟩ true
        (mash_model_allocate_fit ⟨0, 0, 100, 50⟩ ⟨0, 0, 0⟩ ⟨10, 10, 10⟩)
        ⟨0, 0, 1, ⟨0, 0, 0⟩, ⟨10, 10, 10⟩⟩).1 = ⟨id, []⟩ ∧
     (mash_model_render_data ⟨id, []⟩ true
        (mash_model_allocate_fit ⟨0, 0, 100, 50⟩ ⟨0, 0, 0⟩ ⟨10, 10, 10⟩)
        ⟨0, 0, 1, ⟨0, 0, 0⟩, ⟨10, 10, 10⟩⟩).2.1 = ⟨0, 0, 1, ⟨0, 0, 0⟩, ⟨10, 10, 10⟩⟩ ∧
     (mash_model_render_data ⟨id, []⟩ true
        (mash_model_allocate_fit ⟨0, 0, 100, 50⟩ ⟨0, 0, 0⟩ ⟨10, 10, 10⟩)
        ⟨0, 0, 1, ⟨0, 0, 0⟩, ⟨10, 10, 10⟩⟩).2.2 =
        [RenderEvent.draw
          (fun pt => (⟨id, []⟩ : CoglFramebuffer).mv
            ((mash_model_allocate_fit ⟨0, 0, 100, 50⟩ ⟨0, 0, 0⟩ ⟨10, 10, 10⟩).scale * pt.1 +
               (mash_model_allocate_fit ⟨0, 0, 100, 50⟩ ⟨0, 0, 0⟩ ⟨10, 10, 10⟩).translate_x,
             (mash_model_allocate_fit ⟨0, 0, 100, 50⟩ ⟨0, 0, 0⟩ ⟨10, 10, 10⟩).scale * pt.2.1 +
               (mash_model_allocate_fit ⟨0, 0, 100, 50⟩ ⟨0, 0, 0⟩ ⟨10, 10, 10⟩).translate_y,
             (mash_model_allocate_fit ⟨0, 0, 100, 50⟩ ⟨0, 0, 0⟩ ⟨10, 10, 10⟩).scale * pt.2.2 +
               (mash_model_allocate_fit ⟨0, 0, 100, 50⟩ ⟨0, 0, 0⟩ ⟨10, 10, 10⟩).translate_z))
          ⟨0, 0, 1, ⟨0, 0, 0⟩, ⟨10, 10, 10⟩⟩]) :=
  C9_fit_to_bounds ⟨0, 0, 100, 50⟩ ⟨0, 0, 0⟩ ⟨10, 10, 10⟩ ⟨id, []⟩
    ⟨0, 0, 1, ⟨0, 0, 0⟩, ⟨10, 10, 10⟩⟩
    (fun _ => by norm_num [G_MAXFLOAT]) (fun _ => by norm_num [G_MAXFLOAT])

/-- C7: for every material, the effective shininess used for lighting is
`max 0.0001 raw`; it is strictly positive for every raw value, and a raw
value of `0` yields exactly `0.0001`, never `0`. -/
theorem C7_shininess_clamp :
    (∀ s : ℚ, mash_light_set_get_shininess_wrapper s = max ((1 : ℚ) / 10000) s) ∧
    (∀ s : ℚ, 0 < mash_light_set_get_shininess_wrapper s) ∧
    mash_light_set_get_shininess_wrapper 0 = 1 / 10000 := by
  refine ⟨fun s => ?_, fun s => ?_, by norm_num [mash_light_set_get_shininess_wrapper]⟩
  · rw [mash_light_set_get_shininess_wrapper]
    rcases lt_or_le s ((1 : ℚ) / 10000) with h | h
    · rw [if_pos h, max_eq_left h.le]
    · rw [if_neg (not_lt.mpr h), max_eq_right h]
  · rw [mash_light_set_get_shininess_wrapper]
    split
    · norm_num
    · next h => linarith [not_lt.mp h]

end Mash
